import Mathlib

/-!
Shallow embedding of the statistics aggregation and ranking queries of the
cwc-dashboard repository (src/db.py), together with proofs about them.

Each query function of src/db.py sends one SQL query to a PostgreSQL
database.  The embedding models the database as in-memory lists of rows
(structure `DB`) and each query as a pure function over it, following the
PostgreSQL semantics of the query text:

* `JOIN` is a flat product filtered by the join condition;
* `GROUP BY` groups rows by the key tuple; groups are formed only for keys
  that occur, so every group is non-empty;
* `SUM` over integer columns is the list sum; `SUM` over nullable
  expressions skips NULL summands and is NULL when no summand remains;
* `ROUND(x::numeric, 2)` is exact decimal rounding, half away from zero
  (`pgRound2`); float arithmetic on the small per-match counters is
  modelled by exact rational arithmetic;
* `ORDER BY k DESC` sorts by the key descending (`sortByKeyDesc`), with
  NULL keys first, as PostgreSQL defaults to `NULLS FIRST` for `DESC`;
* `LIMIT n` for a parameter `n` takes the first `n` rows when `0 ≤ n` and
  raises an error when `n < 0` (PostgreSQL rejects a negative LIMIT), so
  each ranking function returns `Except String (List _)`.
-/

/- ### SQL modelling helpers -/

/-- `ROUND(q::numeric, 2)` of PostgreSQL: rounding to two decimal places,
half away from zero. -/
def pgRound2 (q : ℚ) : ℚ :=
  if 0 ≤ q then (⌊q * 100 + 1/2⌋ : ℚ) / 100 else -((⌊-q * 100 + 1/2⌋ : ℚ) / 100)

/-- `LIMIT n` with `n` passed as a query parameter: PostgreSQL returns the
first `n` rows for `0 ≤ n` and raises `LIMIT must not be negative` for a
negative parameter. -/
def sqlLimit {α : Type} (limit : Int) (rows : List α) : Except String (List α) :=
  if limit < 0 then .error "LIMIT must not be negative" else .ok (rows.take limit.toNat)

/-- Descending order by a key: `a` sorts before `b` when `key b ≤ key a`. -/
def keyDescRel {α K : Type} [LinearOrder K] (key : α → K) : α → α → Prop :=
  fun a b => key b ≤ key a

instance {α K : Type} [LinearOrder K] (key : α → K) : DecidableRel (keyDescRel key) :=
  fun a b => inferInstanceAs (Decidable (key b ≤ key a))

instance {α K : Type} [LinearOrder K] (key : α → K) : IsTotal α (keyDescRel key) :=
  ⟨fun a b => le_total (key b) (key a)⟩

instance {α K : Type} [LinearOrder K] (key : α → K) : IsTrans α (keyDescRel key) :=
  ⟨fun _ _ _ h1 h2 => le_trans h2 h1⟩

/-- `ORDER BY key DESC`. -/
def sortByKeyDesc {α K : Type} [LinearOrder K] (key : α → K) (l : List α) : List α :=
  l.insertionSort (keyDescRel key)

/-- The group keys of `GROUP BY`: each key value occurring among the rows,
once. -/
def groupKeys {α κ : Type} [DecidableEq κ] (key : α → κ) (rows : List α) : List κ :=
  (rows.map key).dedup

/-- The rows of one `GROUP BY` group. -/
def groupRows {α κ : Type} [DecidableEq κ] (key : α → κ) (rows : List α) (k : κ) : List α :=
  rows.filter (fun r => decide (key r = k))

/-- SQL `SUM` over a nullable expression: NULL summands are skipped and the
sum of no (non-NULL) summands is NULL. -/
def sqlSumQ (l : List (Option ℚ)) : Option ℚ :=
  if (l.filterMap id).isEmpty then none else some (l.filterMap id).sum

/- ### Data model

One structure per table used by the queries of src/db.py.  Integer counter
columns are `Int`, percentage columns are `ℚ`, and the keeper entries of the
JSON `stats` blob of player_stats are nullable (`ps.stats->>'saves'` is NULL
when the key is absent). -/

structure MatchRow where
  id : Nat
  home_team_id : Nat
  away_team_id : Nat
  home_score : Int
  away_score : Int
  date : Nat
deriving DecidableEq

structure TeamRow where
  team_id : Nat
  team_name : String
  logo : String
deriving DecidableEq

structure PlayerRow where
  player_id : Nat
  full_name : String
  team_id : Nat
deriving DecidableEq

structure PlayerStatRow where
  player_id : Nat
  match_id : Nat
  goals : Int
  assists : Int
  saves : Option ℚ
  goalsConceded : Option ℚ
deriving DecidableEq

structure TeamStatRow where
  team_id : Nat
  match_id : Nat
  total_tackles : Int
  fouls : Int
  yellow_cards : Int
  red_cards : Int
  blocked_shots : Int
  effective_tackles : Int
  interceptions : Int
  total_clearance : Int
  effective_clearance : Int
  offsides : Int
  total_shots : Int
  shots_on_target : Int
  total_crosses : Int
  accurate_crosses : Int
  total_long_balls : Int
  accurate_long_balls : Int
  possession_pct : ℚ
  pass_pct : ℚ
  corners : Int
deriving DecidableEq

structure DB where
  «matches» : List MatchRow
  teams : List TeamRow
  players : List PlayerRow
  player_stats : List PlayerStatRow
  team_stats : List TeamStatRow

/- ### get_top_players_by_match and get_top_players_all_matches -/

/-- `FROM player_stats ps JOIN players p ON ps.player_id = p.player_id
JOIN teams t ON p.team_id = t.team_id`. -/
def playerJoinRows (db : DB) : List (PlayerStatRow × PlayerRow × TeamRow) :=
  db.player_stats.flatMap (fun ps =>
    (db.players.filter (fun p => decide (p.player_id = ps.player_id))).flatMap (fun p =>
      (db.teams.filter (fun t => decide (t.team_id = p.team_id))).map (fun t => (ps, p, t))))

/-- One output row of get_top_players_by_match or get_top_players_all_matches;
`ga` is the selected column `"G/A"`. -/
structure TopPlayerRow where
  name : String
  team_name : String
  logo : String
  goals : Int
  assists : Int
  ga : Int
deriving DecidableEq

/-- get_top_players_by_match: per-row goals + assists of one match, ordered
by `"G/A"` descending, truncated to `limit`. -/
def get_top_players_by_match (db : DB) (match_id : Nat) (limit : Int) :
    Except String (List TopPlayerRow) :=
  let sel := ((playerJoinRows db).filter (fun r => decide (r.1.match_id = match_id))).map
    (fun r =>
      { name := r.2.1.full_name, team_name := r.2.2.team_name, logo := r.2.2.logo
      , goals := r.1.goals, assists := r.1.assists, ga := r.1.goals + r.1.assists })
  sqlLimit limit (sortByKeyDesc (fun r : TopPlayerRow => r.ga) sel)

/-- `GROUP BY p.player_id, p.full_name, t.team_name, t.logo`. -/
def topPlayerKey (r : PlayerStatRow × PlayerRow × TeamRow) : Nat × String × String × String :=
  (r.2.1.player_id, r.2.1.full_name, r.2.2.team_name, r.2.2.logo)

/-- The aggregated columns of one get_top_players_all_matches group. -/
def topPlayerAgg (g : List (PlayerStatRow × PlayerRow × TeamRow))
    (k : Nat × String × String × String) : TopPlayerRow :=
  { name := k.2.1, team_name := k.2.2.1, logo := k.2.2.2
  , goals := (g.map (fun r => r.1.goals)).sum
  , assists := (g.map (fun r => r.1.assists)).sum
  , ga := (g.map (fun r => r.1.goals + r.1.assists)).sum }

/-- The full per-player aggregated set of get_top_players_all_matches,
before ordering and truncation. -/
def topPlayersAggregated (db : DB) : List TopPlayerRow :=
  (groupKeys topPlayerKey (playerJoinRows db)).map
    (fun k => topPlayerAgg (groupRows topPlayerKey (playerJoinRows db) k) k)

/-- get_top_players_all_matches: per-player totals across all matches,
ordered by `"G/A"` descending, truncated to `limit`. -/
def get_top_players_all_matches (db : DB) (limit : Int) :
    Except String (List TopPlayerRow) :=
  sqlLimit limit (sortByKeyDesc (fun r : TopPlayerRow => r.ga) (topPlayersAggregated db))

/- ### get_top_goalkeepers_all_matches -/

/-- The WHERE clause: `ps.stats->>'saves' IS NOT NULL AND
(ps.stats->>'saves')::float > 0`. -/
def keeperRowOk (ps : PlayerStatRow) : Bool :=
  match ps.saves with
  | some s => decide (0 < s)
  | none => false

/-- The join of get_top_goalkeepers_all_matches, restricted by its WHERE
clause. -/
def keeperJoinRows (db : DB) : List (PlayerStatRow × PlayerRow × TeamRow) :=
  (playerJoinRows db).filter (fun r => keeperRowOk r.1)

/-- One output row of get_top_goalkeepers_all_matches.  `goals_conceded` and
`save_pct` are nullable in SQL; `saves` is selected as `SUM` over rows that
the WHERE clause already restricted to non-NULL saves, and every group is
non-empty, so that sum is never NULL and is embedded as a plain `ℚ`. -/
structure KeeperRow where
  name : String
  team_name : String
  logo : String
  «matches» : Nat
  saves : ℚ
  goals_conceded : Option ℚ
  save_pct : Option ℚ
deriving DecidableEq

/-- `SUM((ps.stats->>'saves')::float)` over one group. -/
def keeperSavesSum (g : List (PlayerStatRow × PlayerRow × TeamRow)) : ℚ :=
  (g.filterMap (fun r => r.1.saves)).sum

/-- `SUM((ps.stats->>'saves')::float + (ps.stats->>'goalsConceded')::float)`
over one group: a summand is NULL when goalsConceded is NULL for that row. -/
def keeperDenom (g : List (PlayerStatRow × PlayerRow × TeamRow)) : Option ℚ :=
  sqlSumQ (g.map (fun r =>
    match r.1.saves, r.1.goalsConceded with
    | some s, some c => some (s + c)
    | _, _ => none))

/-- `ROUND((SUM(saves) / NULLIF(SUM(saves + goalsConceded), 0))::numeric, 2)`. -/
def keeperSavePct (g : List (PlayerStatRow × PlayerRow × TeamRow)) : Option ℚ :=
  match keeperDenom g with
  | none => none
  | some d => if d = 0 then none else some (pgRound2 (keeperSavesSum g / d))

/-- The HAVING clause: `SUM(saves + goalsConceded) > 0` (NULL compares as
not-true). -/
def keeperHaving (g : List (PlayerStatRow × PlayerRow × TeamRow)) : Bool :=
  match keeperDenom g with
  | some d => decide (0 < d)
  | none => false

/-- The aggregated columns of one goalkeeper group. -/
def keeperAgg (g : List (PlayerStatRow × PlayerRow × TeamRow))
    (k : Nat × String × String × String) : KeeperRow :=
  { name := k.2.1, team_name := k.2.2.1, logo := k.2.2.2
  , «matches» := ((g.map (fun r => r.1.match_id)).dedup).length
  , saves := keeperSavesSum g
  , goals_conceded := sqlSumQ (g.map (fun r => r.1.goalsConceded))
  , save_pct := keeperSavePct g }

/-- The group keys of get_top_goalkeepers_all_matches that pass HAVING. -/
def keeperGoodKeys (db : DB) : List (Nat × String × String × String) :=
  (groupKeys topPlayerKey (keeperJoinRows db)).filter
    (fun k => keeperHaving (groupRows topPlayerKey (keeperJoinRows db) k))

/-- The aggregated goalkeeper rows, before ordering and truncation. -/
def keepersAggregated (db : DB) : List KeeperRow :=
  (keeperGoodKeys db).map
    (fun k => keeperAgg (groupRows topPlayerKey (keeperJoinRows db) k) k)

/-- `ORDER BY save_pct DESC, saves DESC, matches DESC`: lexicographic key,
with the nullable save_pct mapped to `WithTop ℚ` so that NULL sorts first
under DESC. -/
def keeperSortKey (r : KeeperRow) : WithTop ℚ ×ₗ (ℚ ×ₗ ℕ) :=
  toLex ((match r.save_pct with
          | none => (⊤ : WithTop ℚ)
          | some q => (q : WithTop ℚ)), toLex (r.saves, r.«matches»))

/-- get_top_goalkeepers_all_matches: save-percentage leaderboard. -/
def get_top_goalkeepers_all_matches (db : DB) (limit : Int) :
    Except String (List KeeperRow) :=
  sqlLimit limit (sortByKeyDesc keeperSortKey (keepersAggregated db))

/- ### get_most_aggressive_teams -/

/-- The teams-table rows joined to one team_stats row by
`ON ts.team_id = t.team_id`. -/
def teamRowsOf (db : DB) (ts : TeamStatRow) : List TeamRow :=
  db.teams.filter (fun t => decide (t.team_id = ts.team_id))

/-- The matches-table rows joined to one team_stats row by
`ON ts.match_id = m.id`. -/
def matchRowsOf (db : DB) (ts : TeamStatRow) : List MatchRow :=
  db.«matches».filter (fun m => decide (m.id = ts.match_id))

/-- The opposing team_stats rows joined to one team_stats row by
`ON ts.match_id = opp.match_id AND ts.team_id != opp.team_id`. -/
def oppRowsOf (db : DB) (ts : TeamStatRow) : List TeamStatRow :=
  db.team_stats.filter (fun o => decide (o.match_id = ts.match_id ∧ ¬ o.team_id = ts.team_id))

/-- `FROM team_stats ts JOIN teams t ON ts.team_id = t.team_id`. -/
def teamJoinRows (db : DB) : List (TeamStatRow × TeamRow) :=
  db.team_stats.flatMap (fun ts => (teamRowsOf db ts).map (fun t => (ts, t)))

/-- `GROUP BY ts.team_id, t.team_name, t.logo`, shared by the three team
ranking queries. -/
def teamKey2 (r : TeamStatRow × TeamRow) : Nat × String × String :=
  (r.1.team_id, r.2.team_name, r.2.logo)

/-- One output row of get_most_aggressive_teams. -/
structure AggressiveTeamRow where
  team_id : Nat
  team_name : String
  logo : String
  matches_played : Nat
  total_tackles : Int
  fouls : Int
  yellow_cards : Int
  red_cards : Int
  total_aggression_score : Int
  aggression_score_per_match : ℚ
deriving DecidableEq

/-- The aggregated columns of one get_most_aggressive_teams group.  The SQL
wraps the divisor in `NULLIF(COUNT(DISTINCT ts.match_id), 0)`; a group is
never empty, so the NULL branch never fires and the score is embedded as a
plain `ℚ`. -/
def aggressiveAgg (g : List (TeamStatRow × TeamRow)) (k : Nat × String × String) :
    AggressiveTeamRow :=
  let raw : Int :=
    (g.map (fun r => r.1.total_tackles)).sum * 1 +
    (g.map (fun r => r.1.fouls)).sum * 2 +
    (g.map (fun r => r.1.yellow_cards)).sum * 3 +
    (g.map (fun r => r.1.red_cards)).sum * 5
  let mp : Nat := ((g.map (fun r => r.1.match_id)).dedup).length
  { team_id := k.1, team_name := k.2.1, logo := k.2.2
  , matches_played := mp
  , total_tackles := (g.map (fun r => r.1.total_tackles)).sum
  , fouls := (g.map (fun r => r.1.fouls)).sum
  , yellow_cards := (g.map (fun r => r.1.yellow_cards)).sum
  , red_cards := (g.map (fun r => r.1.red_cards)).sum
  , total_aggression_score := raw
  , aggression_score_per_match := pgRound2 ((raw : ℚ) / (mp : ℚ)) }

/-- The aggregated aggression rows, before ordering and truncation. -/
def aggressiveAggregated (db : DB) : List AggressiveTeamRow :=
  (groupKeys teamKey2 (teamJoinRows db)).map
    (fun k => aggressiveAgg (groupRows teamKey2 (teamJoinRows db) k) k)

/-- get_most_aggressive_teams: aggression leaderboard, ordered by
`aggression_score_per_match` descending. -/
def get_most_aggressive_teams (db : DB) (limit : Int) :
    Except String (List AggressiveTeamRow) :=
  sqlLimit limit (sortByKeyDesc (fun r : AggressiveTeamRow => r.aggression_score_per_match)
    (aggressiveAggregated db))

/- ### get_best_defensive_teams -/

/-- The goals-conceded CASE of get_best_defensive_teams:
away score when the team is the home team, home score when it is the away
team, 0 otherwise. -/
def concededCase (ts : TeamStatRow) (m : MatchRow) : Int :=
  if ts.team_id = m.home_team_id then m.away_score
  else if ts.team_id = m.away_team_id then m.home_score
  else 0

/-- `FROM team_stats ts JOIN teams t ON ts.team_id = t.team_id
JOIN matches m ON ts.match_id = m.id
JOIN team_stats opp ON ts.match_id = opp.match_id AND ts.team_id != opp.team_id`. -/
def defensiveJoinRows (db : DB) : List (TeamStatRow × TeamRow × MatchRow × TeamStatRow) :=
  db.team_stats.flatMap (fun ts =>
    (teamRowsOf db ts).flatMap (fun t =>
      (matchRowsOf db ts).flatMap (fun m =>
        (oppRowsOf db ts).map (fun o => (ts, t, m, o)))))

/-- The group key of get_best_defensive_teams. -/
def teamKey4 (r : TeamStatRow × TeamRow × MatchRow × TeamStatRow) : Nat × String × String :=
  (r.1.team_id, r.2.1.team_name, r.2.1.logo)

/-- One output row of get_best_defensive_teams. -/
structure DefensiveTeamRow where
  team_id : Nat
  team_name : String
  logo : String
  total_yellow_cards : Int
  total_blocked_shots : Int
  total_tackles : Int
  total_effective_tackles : Int
  total_interceptions : Int
  total_clearance : Int
  total_effective_clearance : Int
  offsides_against : Int
  goals_conceded : Int
  raw_score : ℚ
  defensive_score : ℚ
deriving DecidableEq

/-- The aggregated columns of one get_best_defensive_teams group. -/
def defensiveAgg (g : List (TeamStatRow × TeamRow × MatchRow × TeamStatRow))
    (k : Nat × String × String) : DefensiveTeamRow :=
  let raw : ℚ :=
    ((g.map (fun r => r.2.2.2.offsides)).sum : Int) * 2.0 +
    ((g.map (fun r => r.1.yellow_cards)).sum : Int) * 1.0 +
    ((g.map (fun r => r.1.blocked_shots)).sum : Int) * 1.5 +
    ((g.map (fun r => r.1.total_tackles)).sum : Int) * 1.0 +
    ((g.map (fun r => r.1.effective_tackles)).sum : Int) * 2.5 +
    ((g.map (fun r => r.1.interceptions)).sum : Int) * 1.5 +
    ((g.map (fun r => r.1.total_clearance)).sum : Int) * 1.0 +
    ((g.map (fun r => r.1.effective_clearance)).sum : Int) * 2.5
  let conceded : Int := (g.map (fun r => concededCase r.1 r.2.2.1)).sum
  { team_id := k.1, team_name := k.2.1, logo := k.2.2
  , total_yellow_cards := (g.map (fun r => r.1.yellow_cards)).sum
  , total_blocked_shots := (g.map (fun r => r.1.blocked_shots)).sum
  , total_tackles := (g.map (fun r => r.1.total_tackles)).sum
  , total_effective_tackles := (g.map (fun r => r.1.effective_tackles)).sum
  , total_interceptions := (g.map (fun r => r.1.interceptions)).sum
  , total_clearance := (g.map (fun r => r.1.total_clearance)).sum
  , total_effective_clearance := (g.map (fun r => r.1.effective_clearance)).sum
  , offsides_against := (g.map (fun r => r.2.2.2.offsides)).sum
  , goals_conceded := conceded
  , raw_score := raw
  , defensive_score := (raw - (conceded : ℚ) * 2.0) / (1 + (conceded : ℚ)) }

/-- The aggregated defensive rows, before ordering and truncation. -/
def defensiveAggregated (db : DB) : List DefensiveTeamRow :=
  (groupKeys teamKey4 (defensiveJoinRows db)).map
    (fun k => defensiveAgg (groupRows teamKey4 (defensiveJoinRows db) k) k)

/-- get_best_defensive_teams: defensive-score leaderboard, ordered by
`defensive_score` descending. -/
def get_best_defensive_teams (db : DB) (limit : Int) :
    Except String (List DefensiveTeamRow) :=
  sqlLimit limit (sortByKeyDesc (fun r : DefensiveTeamRow => r.defensive_score)
    (defensiveAggregated db))

/- ### get_best_attacking_teams -/

/-- The goals-scored CASE of get_best_attacking_teams. -/
def scoredCase (ts : TeamStatRow) (m : MatchRow) : Int :=
  if ts.team_id = m.home_team_id then m.home_score
  else if ts.team_id = m.away_team_id then m.away_score
  else 0

/-- The match-wins CASE of get_best_attacking_teams. -/
def winCase (ts : TeamStatRow) (m : MatchRow) : Int :=
  if ts.team_id = m.home_team_id ∧ m.away_score < m.home_score then 1
  else if ts.team_id = m.away_team_id ∧ m.home_score < m.away_score then 1
  else 0

/-- `FROM team_stats ts JOIN teams t ON ts.team_id = t.team_id
JOIN matches m ON ts.match_id = m.id`. -/
def attackJoinRows (db : DB) : List (TeamStatRow × TeamRow × MatchRow) :=
  db.team_stats.flatMap (fun ts =>
    (teamRowsOf db ts).flatMap (fun t =>
      (matchRowsOf db ts).map (fun m => (ts, t, m))))

/-- The group key of get_best_attacking_teams. -/
def teamKey3 (r : TeamStatRow × TeamRow × MatchRow) : Nat × String × String :=
  (r.1.team_id, r.2.1.team_name, r.2.1.logo)

/-- One output row of get_best_attacking_teams.  `matches_played` is
`COUNT(*)`, the number of joined rows of the group. -/
structure AttackingTeamRow where
  team_id : Nat
  team_name : String
  logo : String
  matches_played : Nat
  total_shots : Int
  shots_on_target : Int
  total_crosses : Int
  accurate_crosses : Int
  total_long_balls : Int
  accurate_long_balls : Int
  avg_possession : ℚ
  avg_pass_pct : ℚ
  won_corners : Int
  goals_scored : Int
  match_wins : Int
  attacking_score_per_match : ℚ
deriving DecidableEq

/-- The aggregated columns of one get_best_attacking_teams group.  `AVG` of
a non-empty group is sum over count; a group is never empty. -/
def attackingAgg (g : List (TeamStatRow × TeamRow × MatchRow)) (k : Nat × String × String) :
    AttackingTeamRow :=
  let n : Nat := g.length
  let avgPoss : ℚ := (g.map (fun r => r.1.possession_pct)).sum / (n : ℚ)
  let avgPass : ℚ := (g.map (fun r => r.1.pass_pct)).sum / (n : ℚ)
  let raw : ℚ :=
    ((g.map (fun r => r.1.total_shots)).sum : Int) * 1.5 +
    ((g.map (fun r => r.1.shots_on_target)).sum : Int) * 2.0 +
    ((g.map (fun r => r.1.total_crosses)).sum : Int) * 1.0 +
    ((g.map (fun r => r.1.accurate_crosses)).sum : Int) * 2.0 +
    ((g.map (fun r => r.1.total_long_balls)).sum : Int) * 0.5 +
    ((g.map (fun r => r.1.accurate_long_balls)).sum : Int) * 1.0 +
    ((g.map (fun r => r.1.corners)).sum : Int) * 1.0 +
    avgPoss * 0.5 +
    avgPass * 0.5 +
    ((g.map (fun r => scoredCase r.1 r.2.2)).sum : Int) * 4.0 +
    ((g.map (fun r => winCase r.1 r.2.2)).sum : Int) * 3.0
  { team_id := k.1, team_name := k.2.1, logo := k.2.2
  , matches_played := n
  , total_shots := (g.map (fun r => r.1.total_shots)).sum
  , shots_on_target := (g.map (fun r => r.1.shots_on_target)).sum
  , total_crosses := (g.map (fun r => r.1.total_crosses)).sum
  , accurate_crosses := (g.map (fun r => r.1.accurate_crosses)).sum
  , total_long_balls := (g.map (fun r => r.1.total_long_balls)).sum
  , accurate_long_balls := (g.map (fun r => r.1.accurate_long_balls)).sum
  , avg_possession := avgPoss
  , avg_pass_pct := avgPass
  , won_corners := (g.map (fun r => r.1.corners)).sum
  , goals_scored := (g.map (fun r => scoredCase r.1 r.2.2)).sum
  , match_wins := (g.map (fun r => winCase r.1 r.2.2)).sum
  , attacking_score_per_match := raw / (n : ℚ) }

/-- The aggregated attacking rows, before ordering and truncation. -/
def attackingAggregated (db : DB) : List AttackingTeamRow :=
  (groupKeys teamKey3 (attackJoinRows db)).map
    (fun k => attackingAgg (groupRows teamKey3 (attackJoinRows db) k) k)

/-- get_best_attacking_teams: attacking-score leaderboard, ordered by
`attacking_score_per_match` descending. -/
def get_best_attacking_teams (db : DB) (limit : Int) :
    Except String (List AttackingTeamRow) :=
  sqlLimit limit (sortByKeyDesc (fun r : AttackingTeamRow => r.attacking_score_per_match)
    (attackingAggregated db))

/- ### get_team_overview_stats -/

/-- The result record of get_team_overview_stats.  The query is one
aggregate with no GROUP BY, so it always yields exactly one row; over an
empty row set `COUNT(*)` is 0 and `SUM` and `AVG` are NULL. -/
structure OverviewRow where
  «matches» : Nat
  wins : Option Int
  goals_scored : Option Int
  goals_conceded : Option Int
  avg_possession : Option ℚ
  avg_pass_pct : Option ℚ
  avg_shots : Option ℚ
  corners : Option Int
deriving DecidableEq

/-- `FROM team_stats ts JOIN matches m ON ts.match_id = m.id
WHERE ts.team_id = %s`. -/
def overviewRows (db : DB) (team_id : Nat) : List (TeamStatRow × MatchRow) :=
  (db.team_stats.filter (fun ts => decide (ts.team_id = team_id))).flatMap (fun ts =>
    (db.«matches».filter (fun m => decide (m.id = ts.match_id))).map (fun m => (ts, m)))

/-- get_team_overview_stats: the single aggregated row for one team. -/
def get_team_overview_stats (db : DB) (team_id : Nat) : OverviewRow :=
  let rows := overviewRows db team_id
  if rows.isEmpty then
    { «matches» := 0, wins := none, goals_scored := none, goals_conceded := none
    , avg_possession := none, avg_pass_pct := none, avg_shots := none, corners := none }
  else
    { «matches» := rows.length
    , wins := some (rows.map (fun r => winCase r.1 r.2)).sum
    , goals_scored := some (rows.map (fun r => scoredCase r.1 r.2)).sum
    , goals_conceded := some (rows.map (fun r => concededCase r.1 r.2)).sum
    , avg_possession := some ((rows.map (fun r => r.1.possession_pct)).sum / (rows.length : ℚ))
    , avg_pass_pct := some ((rows.map (fun r => r.1.pass_pct)).sum / (rows.length : ℚ))
    , avg_shots := some (((rows.map (fun r => r.1.total_shots)).sum : ℚ) / (rows.length : ℚ))
    , corners := some (rows.map (fun r => r.1.corners)).sum }

/- ### Per-team reference aggregates

The claim-level meaning of "per-team sum over all its matches": each stat
row of the team counted once, with the row's match and opponent looked up
directly. -/

/-- The stat rows of one team. -/
def teamStatsOf (db : DB) (tid : Nat) : List TeamStatRow :=
  db.team_stats.filter (fun ts => decide (ts.team_id = tid))

/-- The per-team sum of one of the team's own counter columns. -/
def teamSumInt (db : DB) (tid : Nat) (f : TeamStatRow → Int) : Int :=
  ((teamStatsOf db tid).map f).sum

/-- The per-team sum of the opponents' offsides over the team's matches. -/
def oppOffsidesSum (db : DB) (tid : Nat) : Int :=
  ((teamStatsOf db tid).map (fun ts => ((oppRowsOf db ts).map (fun o => o.offsides)).sum)).sum

/-- The per-team sum of goals conceded over the team's matches, by match
role. -/
def teamConcededSum (db : DB) (tid : Nat) : Int :=
  ((teamStatsOf db tid).map (fun ts =>
    ((matchRowsOf db ts).map (fun m => concededCase ts m)).sum)).sum

/-- The number of distinct matches in which the team has a stat row. -/
def teamDistinctMatches (db : DB) (tid : Nat) : Nat :=
  (((teamStatsOf db tid).map (fun ts => ts.match_id)).dedup).length

/- ### Data-model invariants (spec section 3) -/

/-- Team ids are unique in the teams table. -/
def TeamsUnique (db : DB) : Prop := (db.teams.map (fun t => t.team_id)).Nodup

/-- Match ids are unique in the matches table. -/
def MatchesUnique (db : DB) : Prop := (db.«matches».map (fun m => m.id)).Nodup

/-- Every team_stats row references an existing team. -/
def TeamExists (db : DB) : Prop :=
  ∀ ts ∈ db.team_stats, ∃ t ∈ db.teams, t.team_id = ts.team_id

/-- Every team_stats row references an existing match. -/
def MatchExists (db : DB) : Prop :=
  ∀ ts ∈ db.team_stats, ∃ m ∈ db.«matches», m.id = ts.match_id

/-- Every team_stats row has exactly one opposing row in its match: each
match resolves to exactly two team_stats rows of different teams. -/
def OppUnique (db : DB) : Prop :=
  ∀ ts ∈ db.team_stats, (oppRowsOf db ts).length = 1

/-- Every team has at most one stat row per match. -/
def OneRowPerMatch (db : DB) : Prop :=
  ∀ tid : Nat, ((teamStatsOf db tid).map (fun ts => ts.match_id)).Nodup

/-- All match scores are non-negative. -/
def ScoresNonneg (db : DB) : Prop :=
  ∀ m ∈ db.«matches», 0 ≤ m.home_score ∧ 0 ≤ m.away_score

/-- The exact, unrounded save percentage of an output goalkeeper row: total
saves over total shots faced. -/
def exactSavePct (r : KeeperRow) : ℚ :=
  r.saves / (r.saves + r.goals_conceded.getD 0)

/-- The total saves a player records across all of their player_stats rows,
NULL entries counting 0. -/
def playerTotalSaves (db : DB) (pid : Nat) : ℚ :=
  ((db.player_stats.filter (fun ps => decide (ps.player_id = pid))).map
    (fun ps => ps.saves.getD 0)).sum

/-- The attacking weighted sum re-read off an output row's columns. -/
def attackingRawOfRow (r : AttackingTeamRow) : ℚ :=
  (r.total_shots : ℚ) * 1.5 + (r.shots_on_target : ℚ) * 2.0 + (r.total_crosses : ℚ) * 1.0 +
  (r.accurate_crosses : ℚ) * 2.0 + (r.total_long_balls : ℚ) * 0.5 +
  (r.accurate_long_balls : ℚ) * 1.0 + (r.won_corners : ℚ) * 1.0 +
  r.avg_possession * 0.5 + r.avg_pass_pct * 0.5 +
  (r.goals_scored : ℚ) * 4.0 + (r.match_wins : ℚ) * 3.0

/- ### Concrete databases used in counterexamples and witnesses -/

/-- A database with no rows at all. -/
def emptyDB : DB := ⟨[], [], [], [], []⟩

/-- A team_stats row of all-zero counters, for building concrete rows. -/
def zeroTS (tid mid : Nat) : TeamStatRow :=
  ⟨tid, mid, 0, 0, 0, 0, 0, 0, 0, 0, 0, 0, 0, 0, 0, 0, 0, 0, 0, 0, 0⟩

/-- Two goalkeepers of one team with equal save percentage and different
total saves. -/
def keepersDB : DB :=
  { «matches» := []
  , teams := [⟨1, "A", "a"⟩]
  , players := [⟨1, "K1", 1⟩, ⟨2, "K2", 1⟩]
  , player_stats := [⟨1, 1, 0, 0, some 4, some 4⟩, ⟨2, 1, 0, 0, some 2, some 2⟩]
  , team_stats := [] }

def kRowA : KeeperRow := ⟨"K1", "A", "a", 1, 4, some 4, some (1/2)⟩

def kRowB : KeeperRow := ⟨"K2", "A", "a", 1, 2, some 2, some (1/2)⟩

/-- Two goalkeepers whose exact save percentages differ (33/100 and 1/3)
but round to the same two-decimal value. -/
def keepersDB10 : DB :=
  { «matches» := []
  , teams := [⟨1, "A", "a"⟩]
  , players := [⟨1, "K1", 1⟩, ⟨2, "K2", 1⟩]
  , player_stats := [⟨1, 1, 0, 0, some 33, some 67⟩, ⟨2, 1, 0, 0, some 1, some 2⟩]
  , team_stats := [] }

def k10A : KeeperRow := ⟨"K1", "A", "a", 1, 33, some 67, some (33/100)⟩

def k10B : KeeperRow := ⟨"K2", "A", "a", 1, 1, some 2, some (33/100)⟩

/-- One goalkeeper with saves 1 and goals conceded 2: the exact save
percentage 1/3 is not representable in two decimals. -/
def c5DB : DB :=
  { «matches» := []
  , teams := [⟨1, "A", "a"⟩]
  , players := [⟨1, "K1", 1⟩]
  , player_stats := [⟨1, 1, 0, 0, some 1, some 2⟩]
  , team_stats := [] }

def c5Row : KeeperRow := ⟨"K1", "A", "a", 1, 1, some 2, some (33/100)⟩

/-- One team with one tackle over three matches: the per-match aggression
ratio 1/3 is rounded in the output. -/
def aggrDB : DB :=
  { «matches» := []
  , teams := [⟨7, "T", "t"⟩]
  , players := [], player_stats := []
  , team_stats := [{ zeroTS 7 1 with total_tackles := 1 }, zeroTS 7 2, zeroTS 7 3] }

def aggrRow : AggressiveTeamRow := ⟨7, "T", "t", 3, 1, 0, 0, 0, 1, 33/100⟩

/-- The aggression example of the spec: tackles 100, fouls 20, yellow 10,
red 2 over five matches. -/
def aggrExDB : DB :=
  { «matches» := []
  , teams := [⟨8, "E", "e"⟩]
  , players := [], player_stats := []
  , team_stats :=
      [ { zeroTS 8 1 with total_tackles := 100, fouls := 20, yellow_cards := 10, red_cards := 2 }
      , zeroTS 8 2, zeroTS 8 3, zeroTS 8 4, zeroTS 8 5 ] }

def aggrExRow : AggressiveTeamRow := ⟨8, "E", "e", 5, 100, 20, 10, 2, 180, 36⟩

/-- One team with two stat rows for the same match: `COUNT(*)` counts 2
joined rows while only 1 distinct match contributes. -/
def attackDB : DB :=
  { «matches» := [⟨1, 10, 11, 1, 0, 1⟩]
  , teams := [⟨10, "X", "x"⟩]
  , players := [], player_stats := []
  , team_stats :=
      [ { zeroTS 10 1 with total_shots := 2, possession_pct := 50, pass_pct := 50 }
      , { zeroTS 10 1 with total_shots := 2, possession_pct := 50, pass_pct := 50 } ] }

def attackRow : AttackingTeamRow := ⟨10, "X", "x", 2, 4, 0, 0, 0, 0, 0, 50, 50, 0, 2, 2, 35⟩

/-- The defensive example of the spec: the team with id 20 concedes one
goal and records effective_tackles 10, tackles 20, interceptions 5,
clearance 8, effective_clearance 4, offsides_against 3, yellow 2. -/
def defDB : DB :=
  { «matches» := [⟨1, 10, 20, 1, 0, 1⟩]
  , teams := [⟨10, "H", "h"⟩, ⟨20, "D", "d"⟩]
  , players := [], player_stats := []
  , team_stats :=
      [ { zeroTS 10 1 with offsides := 3 }
      , ⟨20, 1, 20, 0, 2, 0, 0, 10, 5, 8, 4, 0, 0, 0, 0, 0, 0, 0, 0, 0, 0⟩ ] }

def defRow20 : DefensiveTeamRow := ⟨20, "D", "d", 2, 0, 20, 10, 5, 8, 4, 3, 1, 157/2, 153/4⟩

def defRow10 : DefensiveTeamRow := ⟨10, "H", "h", 0, 0, 0, 0, 0, 0, 0, 0, 0, 0, 0⟩

def defDBOut : List DefensiveTeamRow := [defRow20, defRow10]

/-- A database with both goalkeeper stats and team match stats. -/
def mixDB : DB :=
  { «matches» := [⟨1, 10, 20, 1, 0, 1⟩]
  , teams := [⟨10, "H", "h"⟩, ⟨20, "D", "d"⟩, ⟨1, "A", "a"⟩]
  , players := [⟨1, "K1", 1⟩, ⟨2, "K2", 1⟩]
  , player_stats := [⟨1, 1, 0, 0, some 4, some 4⟩, ⟨2, 1, 0, 0, some 2, some 2⟩]
  , team_stats :=
      [ { zeroTS 10 1 with offsides := 3 }
      , ⟨20, 1, 20, 0, 2, 0, 0, 10, 5, 8, 4, 0, 0, 0, 0, 0, 0, 0, 0, 0, 0⟩ ] }

/-- Two players of one team with stats in two matches. -/
def playersDB : DB :=
  { «matches» := []
  , teams := [⟨1, "A", "a"⟩]
  , players := [⟨1, "P1", 1⟩, ⟨2, "P2", 1⟩]
  , player_stats :=
      [ ⟨1, 1, 2, 1, none, none⟩
      , ⟨2, 1, 1, 0, none, none⟩
      , ⟨1, 2, 0, 1, none, none⟩ ]
  , team_stats := [] }

/-- The output of `get_top_players_all_matches playersDB 2`. -/
def playersDBTop : List TopPlayerRow :=
  [ ⟨"P1", "A", "a", 2, 2, 4⟩, ⟨"P2", "A", "a", 1, 0, 1⟩ ]

/- ### General lemmas about the SQL modelling helpers -/

theorem sortByKeyDesc_sorted {α K : Type} [LinearOrder K] (key : α → K) (l : List α) :
    (sortByKeyDesc key l).Pairwise (fun a b => key b ≤ key a) :=
  List.sorted_insertionSort (keyDescRel key) l

theorem sortByKeyDesc_perm {α K : Type} [LinearOrder K] (key : α → K) (l : List α) :
    List.Perm (sortByKeyDesc key l) l :=
  List.perm_insertionSort (keyDescRel key) l

theorem mem_sortByKeyDesc {α K : Type} [LinearOrder K] {key : α → K} {l : List α} {x : α} :
    x ∈ sortByKeyDesc key l ↔ x ∈ l :=
  (sortByKeyDesc_perm key l).mem_iff

theorem sqlLimit_eq_ok {α : Type} {limit : Int} {rows out : List α}
    (h : sqlLimit limit rows = .ok out) : ¬limit < 0 ∧ out = rows.take limit.toNat := by
  unfold sqlLimit at h
  by_cases hl : limit < 0
  · rw [if_pos hl] at h
    exact Except.noConfusion h
  · rw [if_neg hl] at h
    exact ⟨hl, (Except.ok.inj h).symm⟩

theorem sqlLimit_zero {α : Type} (rows : List α) : sqlLimit 0 rows = .ok [] := by
  simp [sqlLimit]

theorem sqlLimit_neg {α : Type} {limit : Int} (rows : List α) (h : limit < 0) :
    sqlLimit limit rows = .error "LIMIT must not be negative" := by
  simp [sqlLimit, h]

theorem mem_groupKeys {α κ : Type} [DecidableEq κ] {key : α → κ} {rows : List α} {k : κ} :
    k ∈ groupKeys key rows ↔ ∃ r ∈ rows, key r = k := by
  simp [groupKeys, List.mem_dedup]

theorem mem_groupRows {α κ : Type} [DecidableEq κ] {key : α → κ} {rows : List α} {k : κ}
    {r : α} : r ∈ groupRows key rows k ↔ r ∈ rows ∧ key r = k := by
  simp [groupRows]

/-- Sum of a function over the concatenation of the per-element lists. -/
theorem sum_flatMap_eq {α M : Type} [AddCommMonoid M] (l : List α) (h : α → List M) :
    (l.flatMap h).sum = (l.map (fun a => (h a).sum)).sum := by
  induction l with
  | nil => rfl
  | cons a t ih => simp [List.flatMap_cons, List.sum_append, ih]

/-- Grouping distributes over a join: the rows of group `k` are the
concatenation, over the outer rows, of each outer row's joined rows in
group `k`. -/
theorem groupRows_flatMap {α β κ : Type} [DecidableEq κ] (key : β → κ) (l : List α)
    (inner : α → List β) (k : κ) :
    groupRows key (l.flatMap inner) k = l.flatMap (fun a => groupRows key (inner a) k) := by
  simp [groupRows, List.filter_flatMap]

/-- In a list of rows whose key column is duplicate-free, filtering for the
key of a member keeps exactly that member. -/
theorem filter_key_eq_singleton {α κ : Type} [DecidableEq κ] {l : List α} {g : α → κ}
    (hnd : (l.map g).Nodup) {x : α} (hx : x ∈ l) {v : κ} (hv : g x = v) :
    l.filter (fun y => decide (g y = v)) = [x] := by
  induction l with
  | nil => cases hx
  | cons a t ih =>
    rw [List.map_cons, List.nodup_cons] at hnd
    rcases List.mem_cons.1 hx with rfl | hxt
    · have ht : t.filter (fun y => decide (g y = v)) = [] := by
        apply List.filter_eq_nil_iff.2
        intro b hb
        simp only [decide_eq_true_eq]
        exact fun hgb => hnd.1 (hv ▸ hgb ▸ List.mem_map_of_mem g hb)
      simp [List.filter_cons, hv, ht]
    · have hne : ¬ g a = v := by
        intro hga
        exact hnd.1 (hga ▸ hv ▸ List.mem_map_of_mem g hxt)
      rw [List.filter_cons, if_neg (by simpa using hne)]
      exact ih hnd.2 hxt

/- ### C3: behaviour of the ranking operations at non-positive limits -/

/-- C3 (amended): every ranking operation called with `limit = 0` returns an
empty sequence, and every ranking operation called with a negative limit
raises the PostgreSQL error for a negative LIMIT instead of returning an
empty sequence. -/
theorem ranking_ops_limit_zero_empty_negative_error (db : DB) (mid : Nat) :
    (get_top_players_by_match db mid 0 = .ok [] ∧
     get_top_players_all_matches db 0 = .ok [] ∧
     get_top_goalkeepers_all_matches db 0 = .ok [] ∧
     get_most_aggressive_teams db 0 = .ok [] ∧
     get_best_defensive_teams db 0 = .ok [] ∧
     get_best_attacking_teams db 0 = .ok []) ∧
    ∀ limit : Int, limit < 0 →
      (get_top_players_by_match db mid limit = .error "LIMIT must not be negative" ∧
       get_top_players_all_matches db limit = .error "LIMIT must not be negative" ∧
       get_top_goalkeepers_all_matches db limit = .error "LIMIT must not be negative" ∧
       get_most_aggressive_teams db limit = .error "LIMIT must not be negative" ∧
       get_best_defensive_teams db limit = .error "LIMIT must not be negative" ∧
       get_best_attacking_teams db limit = .error "LIMIT must not be negative") := by
  refine ⟨⟨?_, ?_, ?_, ?_, ?_, ?_⟩, fun limit hl => ⟨?_, ?_, ?_, ?_, ?_, ?_⟩⟩ <;>
    first
      | exact sqlLimit_zero _
      | exact sqlLimit_neg _ hl

/-- C3 counterexample: with a negative limit a ranking operation raises an
error; the claim instead promises an empty sequence and no error. -/
theorem ranking_op_negative_limit_errors :
    get_top_players_all_matches emptyDB (-1) = .error "LIMIT must not be negative" :=
  sqlLimit_neg _ (by norm_num)

/- ### C8: get_top_players_all_matches returns a limited, sorted subset -/

/-- C8: for a non-empty input set, get_top_players_all_matches returns at
most `limit` entries, sorted by G/A descending, and every returned entry is
an element of the full per-player aggregated set. -/
theorem top_players_limit_sorted_subset (db : DB) (hne : db.player_stats ≠ [])
    (limit : Int) (out : List TopPlayerRow)
    (hok : get_top_players_all_matches db limit = .ok out) :
    (out.length : Int) ≤ limit ∧
    out.Pairwise (fun a b => b.ga ≤ a.ga) ∧
    ∀ r ∈ out, r ∈ topPlayersAggregated db := by
  unfold get_top_players_all_matches at hok
  obtain ⟨hneg, rfl⟩ := sqlLimit_eq_ok hok
  refine ⟨?_, ?_, ?_⟩
  · calc ((List.take limit.toNat _).length : Int)
        ≤ (limit.toNat : Int) := by exact_mod_cast List.length_take_le _ _
      _ = limit := Int.toNat_of_nonneg (le_of_not_lt hneg)
  · exact List.Pairwise.sublist (List.take_sublist _ _)
      (sortByKeyDesc_sorted (fun r : TopPlayerRow => r.ga) _)
  · intro r hr
    exact mem_sortByKeyDesc.1 (List.mem_of_mem_take hr)

/-- C8 witness: the theorem applied to a concrete two-player database. -/
theorem top_players_limit_sorted_subset_witness :
    (playersDBTop.length : Int) ≤ 2 ∧
    playersDBTop.Pairwise (fun a b => b.ga ≤ a.ga) ∧
    ∀ r ∈ playersDBTop, r ∈ topPlayersAggregated playersDB :=
  top_players_limit_sorted_subset playersDB (by decide) 2 playersDBTop (by rfl)

/- ### Goalkeeper query lemmas -/

theorem mem_playerJoinRows {db : DB} {r : PlayerStatRow × PlayerRow × TeamRow}
    (h : r ∈ playerJoinRows db) :
    r.1 ∈ db.player_stats ∧ r.2.1 ∈ db.players ∧ r.2.2 ∈ db.teams ∧
      r.2.1.player_id = r.1.player_id ∧ r.2.2.team_id = r.2.1.team_id := by
  simp only [playerJoinRows, List.mem_flatMap, List.mem_filter, List.mem_map,
    decide_eq_true_eq] at h
  obtain ⟨ps, hps, p, ⟨hp, hpid⟩, t, ⟨ht, htid⟩, rfl⟩ := h
  exact ⟨hps, hp, ht, hpid, htid⟩

theorem keeperRowOk_elim {ps : PlayerStatRow} (h : keeperRowOk ps = true) :
    ∃ s : ℚ, ps.saves = some s ∧ 0 < s := by
  unfold keeperRowOk at h
  cases hs : ps.saves with
  | none => rw [hs] at h; cases h
  | some s => rw [hs] at h; exact ⟨s, rfl, of_decide_eq_true h⟩

theorem keeperAgg_saves (g : List (PlayerStatRow × PlayerRow × TeamRow))
    (k : Nat × String × String × String) : (keeperAgg g k).saves = keeperSavesSum g := rfl

theorem keeperAgg_goals_conceded (g : List (PlayerStatRow × PlayerRow × TeamRow))
    (k : Nat × String × String × String) :
    (keeperAgg g k).goals_conceded = sqlSumQ (g.map (fun r => r.1.goalsConceded)) := rfl

theorem keeperAgg_save_pct (g : List (PlayerStatRow × PlayerRow × TeamRow))
    (k : Nat × String × String × String) : (keeperAgg g k).save_pct = keeperSavePct g := rfl

theorem keeperGoodKeys_having {db : DB} {k : Nat × String × String × String}
    (hk : k ∈ keeperGoodKeys db) :
    k ∈ groupKeys topPlayerKey (keeperJoinRows db) ∧
      keeperHaving (groupRows topPlayerKey (keeperJoinRows db) k) = true := by
  unfold keeperGoodKeys at hk
  exact List.mem_filter.1 hk

theorem keeperHaving_denom {g : List (PlayerStatRow × PlayerRow × TeamRow)}
    (h : keeperHaving g = true) : ∃ d : ℚ, keeperDenom g = some d ∧ 0 < d := by
  unfold keeperHaving at h
  cases hd : keeperDenom g with
  | none => rw [hd] at h; cases h
  | some d => rw [hd] at h; exact ⟨d, rfl, of_decide_eq_true h⟩

theorem keeperSavePct_of_denom {g : List (PlayerStatRow × PlayerRow × TeamRow)} {d : ℚ}
    (hd : keeperDenom g = some d) (hpos : 0 < d) :
    keeperSavePct g = some (pgRound2 (keeperSavesSum g / d)) := by
  unfold keeperSavePct
  rw [hd]
  show (if d = 0 then none else some (pgRound2 (keeperSavesSum g / d))) = _
  rw [if_neg (ne_of_gt hpos)]

/-- Every successful goalkeeper query result is sorted by the lexicographic
key (rounded save percentage, saves, matches) descending, and each of its
rows is the aggregate of a group passing HAVING. -/
theorem keeper_ok_elim {db : DB} {limit : Int} {out : List KeeperRow}
    (hok : get_top_goalkeepers_all_matches db limit = .ok out) :
    out.Pairwise (fun a b => keeperSortKey b ≤ keeperSortKey a) ∧
    ∀ r ∈ out, ∃ k ∈ keeperGoodKeys db,
      r = keeperAgg (groupRows topPlayerKey (keeperJoinRows db) k) k := by
  unfold get_top_goalkeepers_all_matches at hok
  obtain ⟨-, rfl⟩ := sqlLimit_eq_ok hok
  refine ⟨List.Pairwise.sublist (List.take_sublist _ _) (sortByKeyDesc_sorted _ _), ?_⟩
  intro r hr
  have hr2 : r ∈ keepersAggregated db := mem_sortByKeyDesc.1 (List.mem_of_mem_take hr)
  unfold keepersAggregated at hr2
  obtain ⟨k, hk, rfl⟩ := List.mem_map.1 hr2
  exact ⟨k, hk, rfl⟩

theorem keeperSortKey_le_decomp {a b : KeeperRow}
    (h : keeperSortKey b ≤ keeperSortKey a) (hpct : a.save_pct = b.save_pct) :
    b.saves ≤ a.saves ∧ (a.saves = b.saves → b.«matches» ≤ a.«matches») := by
  unfold keeperSortKey at h
  rw [hpct] at h
  rcases (Prod.Lex.le_iff _ _).1 h with hlt | ⟨-, h2⟩
  · exact absurd hlt (lt_irrefl _)
  · rcases (Prod.Lex.le_iff _ _).1 h2 with hlt2 | ⟨heq2, h3⟩
    · exact ⟨le_of_lt hlt2,
        fun he => absurd (lt_of_lt_of_le hlt2 (le_of_eq he)) (lt_irrefl _)⟩
    · exact ⟨le_of_eq heq2, fun _ => h3⟩

/- ### C4: save-percentage tie-break -/

/-- C4: in the goalkeeper leaderboard, among rows of identical save
percentage the earlier row has at least as many saves, and among rows of
identical save percentage and identical saves the earlier row has at least
as many matches; so more saves (then more matches) orders first. -/
theorem keeper_tie_break_saves_then_matches (db : DB) (limit : Int) (out : List KeeperRow)
    (hok : get_top_goalkeepers_all_matches db limit = .ok out)
    (i j : Nat) (hi : i < out.length) (hj : j < out.length) (hij : i < j)
    (hpct : out[i].save_pct = out[j].save_pct) :
    out[j].saves ≤ out[i].saves ∧
      (out[i].saves = out[j].saves → out[j].«matches» ≤ out[i].«matches») := by
  have hp := (keeper_ok_elim hok).1
  have hkey := List.pairwise_iff_getElem.1 hp i j hi hj hij
  exact keeperSortKey_le_decomp hkey hpct

/-- C4 witness: two goalkeepers with save percentage 1/2; the one with 4
saves is ordered before the one with 2. -/
theorem keeper_tie_break_witness :
    kRowB.saves ≤ kRowA.saves ∧
      (kRowA.saves = kRowB.saves → kRowB.«matches» ≤ kRowA.«matches») := by
  have h := keeper_tie_break_saves_then_matches keepersDB 5 [kRowA, kRowB]
    (by with_unfolding_all rfl) 0 1 (by decide) (by decide) (by decide)
    (by with_unfolding_all rfl)
  simpa using h

/- ### C10: the ordering key is the rounded save percentage -/

/-- C10: the goalkeeper ordering key is the two-decimal rounded save
percentage (the `save_pct` column), not the exact ratio: every output is
sorted by `keeperSortKey` (rounded save percentage, then saves, then
matches, descending), and on a concrete database two keepers whose exact
save percentages differ by less than 1/200 but round to the same value are
ordered by saves, placing the keeper with the lower exact save percentage
first. -/
theorem keeper_order_key_is_rounded_pct :
    (∀ (db : DB) (limit : Int) (out : List KeeperRow),
        get_top_goalkeepers_all_matches db limit = .ok out →
        out.Pairwise (fun a b => keeperSortKey b ≤ keeperSortKey a)) ∧
    get_top_goalkeepers_all_matches keepersDB10 5 = .ok [k10A, k10B] ∧
    k10A.save_pct = k10B.save_pct ∧
    exactSavePct k10A < exactSavePct k10B ∧
    exactSavePct k10B - exactSavePct k10A < 1/200 ∧
    k10B.saves < k10A.saves := by
  refine ⟨fun db limit out hok => (keeper_ok_elim hok).1, ?_, ?_, ?_, ?_, ?_⟩
  · with_unfolding_all rfl
  · rfl
  · with_unfolding_all decide
  · with_unfolding_all decide
  · with_unfolding_all decide

/- ### C9: the divisions of the scoring formulas are guarded -/

theorem mem_defensiveJoinRows {db : DB} {r : TeamStatRow × TeamRow × MatchRow × TeamStatRow}
    (h : r ∈ defensiveJoinRows db) :
    r.1 ∈ db.team_stats ∧ r.2.1 ∈ teamRowsOf db r.1 ∧ r.2.2.1 ∈ matchRowsOf db r.1 ∧
      r.2.2.2 ∈ oppRowsOf db r.1 := by
  simp only [defensiveJoinRows, List.mem_flatMap, List.mem_map] at h
  obtain ⟨ts, hts, t, ht, m, hm, o, ho, rfl⟩ := h
  exact ⟨hts, ht, hm, ho⟩

/-- Each row of a successful defensive query result is the aggregate of one
group of the defensive join. -/
theorem defensive_ok_elim {db : DB} {limit : Int} {out : List DefensiveTeamRow}
    (hok : get_best_defensive_teams db limit = .ok out) :
    out.Pairwise (fun a b => b.defensive_score ≤ a.defensive_score) ∧
    ∀ r ∈ out, ∃ k ∈ groupKeys teamKey4 (defensiveJoinRows db),
      r = defensiveAgg (groupRows teamKey4 (defensiveJoinRows db) k) k := by
  unfold get_best_defensive_teams at hok
  obtain ⟨-, rfl⟩ := sqlLimit_eq_ok hok
  refine ⟨List.Pairwise.sublist (List.take_sublist _ _) (sortByKeyDesc_sorted _ _), ?_⟩
  intro r hr
  have hr2 : r ∈ defensiveAggregated db := mem_sortByKeyDesc.1 (List.mem_of_mem_take hr)
  unfold defensiveAggregated at hr2
  obtain ⟨k, hk, rfl⟩ := List.mem_map.1 hr2
  exact ⟨k, hk, rfl⟩

/-- C9: the divisions of the scoring formulas are guarded.  Every output
row of the goalkeeper leaderboard divides by a denominator that the HAVING
clause has checked to be positive (its save percentage is defined, not
NULL), and when match scores are non-negative every output row of the
defensive leaderboard has goals_conceded non-negative, so its denominator
1 + goals_conceded is positive. -/
theorem division_guards (db : DB) (limit : Int)
    (hs : ScoresNonneg db) :
    (∀ out : List KeeperRow, get_top_goalkeepers_all_matches db limit = .ok out →
      ∀ r ∈ out, ∃ d : ℚ, 0 < d ∧ r.save_pct = some (pgRound2 (r.saves / d))) ∧
    (∀ out : List DefensiveTeamRow, get_best_defensive_teams db limit = .ok out →
      ∀ r ∈ out, 0 ≤ r.goals_conceded ∧ 0 < 1 + (r.goals_conceded : ℚ)) := by
  constructor
  · intro out hok r hr
    obtain ⟨k, hk, rfl⟩ := (keeper_ok_elim hok).2 r hr
    obtain ⟨d, hd, hdpos⟩ := keeperHaving_denom (keeperGoodKeys_having hk).2
    exact ⟨d, hdpos, keeperSavePct_of_denom hd hdpos⟩
  · intro out hok r hr
    obtain ⟨k, hk, rfl⟩ := (defensive_ok_elim hok).2 r hr
    have hcon : 0 ≤ (defensiveAgg (groupRows teamKey4 (defensiveJoinRows db) k) k).goals_conceded := by
      apply List.sum_nonneg
      intro x hx
      obtain ⟨row, hrow, rfl⟩ := List.mem_map.1 hx
      have hm : row.2.2.1 ∈ matchRowsOf db row.1 :=
        (mem_defensiveJoinRows (mem_groupRows.1 hrow).1).2.2.1
      have hmm : row.2.2.1 ∈ db.«matches» := (List.mem_filter.1 hm).1
      obtain ⟨h1, h2⟩ := hs _ hmm
      unfold concededCase
      split
      · exact h2
      · split
        · exact h1
        · exact le_refl 0
    refine ⟨hcon, ?_⟩
    have : (0 : ℚ) ≤ ((defensiveAgg (groupRows teamKey4 (defensiveJoinRows db) k) k).goals_conceded : ℚ) := by
      exact_mod_cast hcon
    linarith

/-- C9 witness: the guard theorem applied to a database holding both
goalkeeper rows and team match stats. -/
theorem division_guards_witness :
    (∀ out : List KeeperRow, get_top_goalkeepers_all_matches mixDB 5 = .ok out →
      ∀ r ∈ out, ∃ d : ℚ, 0 < d ∧ r.save_pct = some (pgRound2 (r.saves / d))) ∧
    (∀ out : List DefensiveTeamRow, get_best_defensive_teams mixDB 5 = .ok out →
      ∀ r ∈ out, 0 ≤ r.goals_conceded ∧ 0 < 1 + (r.goals_conceded : ℚ)) :=
  division_guards mixDB 5 (by unfold ScoresNonneg; decide)

/- ### C5: zero-saves exclusion and the save-percentage formula -/

theorem filterMap_eq_map_getD {α β : Type} (d : β) (f : α → Option β) (g : List α)
    (hall : ∀ x ∈ g, (f x).isSome) :
    g.filterMap f = g.map (fun x => (f x).getD d) := by
  induction g with
  | nil => rfl
  | cons a t ih =>
    have ha := hall a (List.mem_cons_self a t)
    cases hfa : f a with
    | none => rw [hfa] at ha; cases ha
    | some b =>
      simp only [List.filterMap_cons, hfa, List.map_cons, Option.getD_some]
      exact congrArg (List.cons b) (ih (fun x hx => hall x (List.mem_cons_of_mem a hx)))

theorem sum_map_add_q {α : Type} (f h : α → ℚ) (l : List α) :
    (l.map (fun x => f x + h x)).sum = (l.map f).sum + (l.map h).sum := by
  induction l with
  | nil => simp
  | cons a t ih =>
    simp only [List.map_cons, List.sum_cons, ih]
    ring

/-- When every group row records both saves and goals conceded, the HAVING
denominator is the sum of total saves and total goals conceded, and the
goals-conceded column is that total. -/
theorem keeperDenom_all_some {g : List (PlayerStatRow × PlayerRow × TeamRow)}
    (hall : ∀ x ∈ g, (x.1.saves).isSome ∧ (x.1.goalsConceded).isSome) (hne : g ≠ []) :
    keeperDenom g =
      some (keeperSavesSum g + (g.map (fun x => x.1.goalsConceded.getD 0)).sum) ∧
    sqlSumQ (g.map (fun x => x.1.goalsConceded)) =
      some ((g.map (fun x => x.1.goalsConceded.getD 0)).sum) ∧
    keeperSavesSum g = (g.map (fun x => x.1.saves.getD 0)).sum := by
  have hgne : g.isEmpty = false := by
    cases g with
    | nil => exact absurd rfl hne
    | cons a t => rfl
  have hsaves : keeperSavesSum g = (g.map (fun x => x.1.saves.getD 0)).sum := by
    unfold keeperSavesSum
    rw [filterMap_eq_map_getD 0 _ g (fun x hx => (hall x hx).1)]
  have hconc : g.filterMap (fun x => x.1.goalsConceded) =
      g.map (fun x => x.1.goalsConceded.getD 0) := by
    rw [filterMap_eq_map_getD 0 _ g (fun x hx => (hall x hx).2)]
  have hcomb : (g.map (fun x =>
      match x.1.saves, x.1.goalsConceded with
      | some s, some c => some (s + c)
      | _, _ => none)).filterMap id =
      g.map (fun x => x.1.saves.getD 0 + x.1.goalsConceded.getD 0) := by
    rw [List.filterMap_map]
    rw [filterMap_eq_map_getD 0]
    · apply List.map_congr_left
      intro x hx
      obtain ⟨h1, h2⟩ := hall x hx
      rw [Option.isSome_iff_exists] at h1 h2
      obtain ⟨s, hs⟩ := h1
      obtain ⟨c, hc⟩ := h2
      simp [Function.comp, hs, hc]
    · intro x hx
      obtain ⟨h1, h2⟩ := hall x hx
      rw [Option.isSome_iff_exists] at h1 h2
      obtain ⟨s, hs⟩ := h1
      obtain ⟨c, hc⟩ := h2
      simp [Function.comp, hs, hc]
  refine ⟨?_, ?_, hsaves⟩
  · unfold keeperDenom sqlSumQ
    rw [hcomb]
    have hmapne : (g.map (fun x => x.1.saves.getD 0 + x.1.goalsConceded.getD 0)).isEmpty = false := by
      cases g with
      | nil => exact absurd rfl hne
      | cons a t => rfl
    rw [if_neg (by simp [hmapne])]
    rw [sum_map_add_q (fun x => x.1.saves.getD 0) (fun x => x.1.goalsConceded.getD 0) g, hsaves]
  · unfold sqlSumQ
    rw [List.filterMap_map]
    have : g.filterMap (id ∘ fun x => x.1.goalsConceded) =
        g.map (fun x => x.1.goalsConceded.getD 0) := hconc
    rw [this]
    have hmapne : (g.map (fun x => x.1.goalsConceded.getD 0)).isEmpty = false := by
      cases g with
      | nil => exact absurd rfl hne
      | cons a t => rfl
    rw [if_neg (by simp [hmapne])]

/-- C5 (amended): a player all of whose saves values are non-negative and
whose total saves equal 0 contributes no group to the goalkeeper
leaderboard; and when every stat row recording saves also records goals
conceded, every output goalkeeper's save percentage equals total saves over
(total saves + total goals conceded), rounded to two decimal places. -/
theorem keeper_zero_saves_excluded_and_pct_rounded :
    (∀ (db : DB) (pid : Nat),
        (∀ ps ∈ db.player_stats, ∀ s : ℚ, ps.saves = some s → 0 ≤ s) →
        playerTotalSaves db pid = 0 →
        ∀ k ∈ keeperGoodKeys db, k.1 ≠ pid) ∧
    (∀ (db : DB) (limit : Int) (out : List KeeperRow),
        (∀ ps ∈ db.player_stats, (ps.saves).isSome → (ps.goalsConceded).isSome) →
        get_top_goalkeepers_all_matches db limit = .ok out →
        ∀ r ∈ out, ∃ c : ℚ, r.goals_conceded = some c ∧
          r.save_pct = some (pgRound2 (r.saves / (r.saves + c)))) := by
  constructor
  · intro db pid hnn hz k hk hkp
    obtain ⟨hmem, -⟩ := keeperGoodKeys_having hk
    obtain ⟨row, hrow, hkey⟩ := mem_groupKeys.1 hmem
    have hrow2 := List.mem_filter.1 hrow
    obtain ⟨s, hs, hspos⟩ := keeperRowOk_elim hrow2.2
    obtain ⟨hps, -, -, hpid, -⟩ := mem_playerJoinRows hrow2.1
    have hpid2 : row.1.player_id = pid := by
      have h1 : k.1 = row.2.1.player_id := by rw [← hkey]; rfl
      rw [← hpid, ← h1, hkp]
    have hmem2 : row.1 ∈ db.player_stats.filter (fun ps => decide (ps.player_id = pid)) :=
      List.mem_filter.2 ⟨hps, by simp [hpid2]⟩
    have hsl : s ∈ (db.player_stats.filter (fun ps => decide (ps.player_id = pid))).map
        (fun ps => ps.saves.getD 0) :=
      List.mem_map.2 ⟨row.1, hmem2, by rw [hs]; rfl⟩
    have hposall : ∀ x ∈ (db.player_stats.filter
        (fun ps => decide (ps.player_id = pid))).map (fun ps => ps.saves.getD 0), 0 ≤ x := by
      intro x hx
      obtain ⟨ps, hps2, rfl⟩ := List.mem_map.1 hx
      have hpsmem := (List.mem_filter.1 hps2).1
      cases hsv : ps.saves with
      | none => simp [hsv]
      | some s2 => simpa [hsv] using hnn ps hpsmem s2 hsv
    have hle : s ≤ playerTotalSaves db pid := List.single_le_sum hposall s hsl
    rw [hz] at hle
    exact absurd (lt_of_lt_of_le hspos hle) (lt_irrefl 0)
  · intro db limit out hcz hok r hr
    obtain ⟨k, hk, rfl⟩ := (keeper_ok_elim hok).2 r hr
    have hall : ∀ x ∈ groupRows topPlayerKey (keeperJoinRows db) k,
        (x.1.saves).isSome ∧ (x.1.goalsConceded).isSome := by
      intro x hx
      have hx3 := List.mem_filter.1 (mem_groupRows.1 hx).1
      obtain ⟨s, hs, -⟩ := keeperRowOk_elim hx3.2
      have hsome : (x.1.saves).isSome := by rw [hs]; rfl
      exact ⟨hsome, hcz x.1 (mem_playerJoinRows hx3.1).1 hsome⟩
    have hne : groupRows topPlayerKey (keeperJoinRows db) k ≠ [] := by
      obtain ⟨hmem, -⟩ := keeperGoodKeys_having hk
      obtain ⟨row, hrow, hkey⟩ := mem_groupKeys.1 hmem
      intro hnil
      have hin : row ∈ groupRows topPlayerKey (keeperJoinRows db) k :=
        mem_groupRows.2 ⟨hrow, hkey⟩
      rw [hnil] at hin
      cases hin
    obtain ⟨d, hd, hdpos⟩ := keeperHaving_denom (keeperGoodKeys_having hk).2
    obtain ⟨hden, hcon, -⟩ := keeperDenom_all_some hall hne
    have hdval : keeperSavesSum (groupRows topPlayerKey (keeperJoinRows db) k) +
        ((groupRows topPlayerKey (keeperJoinRows db) k).map
          (fun x => x.1.goalsConceded.getD 0)).sum = d :=
      Option.some.inj (hden.symm.trans hd)
    have hdpos2 : 0 < keeperSavesSum (groupRows topPlayerKey (keeperJoinRows db) k) +
        ((groupRows topPlayerKey (keeperJoinRows db) k).map
          (fun x => x.1.goalsConceded.getD 0)).sum := by
      rw [hdval]; exact hdpos
    refine ⟨((groupRows topPlayerKey (keeperJoinRows db) k).map
        (fun x => x.1.goalsConceded.getD 0)).sum, ?_, ?_⟩
    · rw [keeperAgg_goals_conceded]
      exact hcon
    · rw [keeperAgg_save_pct, keeperAgg_saves]
      exact keeperSavePct_of_denom hden hdpos2

/-- C5 counterexample: a goalkeeper with saves 1 and goals conceded 2 has
output save percentage 33/100, not the exact ratio 1/3 that the claim
states. -/
theorem save_pct_is_rounded_counterexample :
    get_top_goalkeepers_all_matches c5DB 5 = .ok [c5Row] ∧
    ¬ c5Row.save_pct = some (c5Row.saves / (c5Row.saves + c5Row.goals_conceded.getD 0)) := by
  constructor
  · with_unfolding_all rfl
  · with_unfolding_all decide

/-- C5 witness: the rounded-percentage formula applied to a concrete
database. -/
theorem keeper_pct_formula_witness :
    ∃ c : ℚ, c5Row.goals_conceded = some c ∧
      c5Row.save_pct = some (pgRound2 (c5Row.saves / (c5Row.saves + c))) :=
  keeper_zero_saves_excluded_and_pct_rounded.2 c5DB 5 [c5Row] (by decide)
    (by with_unfolding_all rfl) c5Row (List.mem_singleton_self c5Row)

/- ### C7: get_team_overview_stats and unknown teams -/

/-- C7 (amended): get_team_overview_stats always returns a single
aggregated record whose matches column counts the team's joined stat rows;
when the team has no stat rows (in particular when teamId is unknown) it
returns the record with matches = 0 and NULL aggregates instead of failing
with a NotFound error. -/
theorem team_overview_single_record (db : DB) (tid : Nat) :
    (get_team_overview_stats db tid).«matches» = (overviewRows db tid).length ∧
    (overviewRows db tid = [] →
      get_team_overview_stats db tid =
        ⟨0, none, none, none, none, none, none, none⟩) := by
  constructor
  · by_cases h : (overviewRows db tid).isEmpty
    · simp [get_team_overview_stats, List.isEmpty_iff.1 h]
    · simp [get_team_overview_stats, h]
  · intro h
    simp [get_team_overview_stats, h]

/-- C7 counterexample: team id 99 is unknown, yet the query returns a
record (with matches = 0 and NULL aggregates) rather than failing. -/
theorem team_overview_unknown_team_returns_record :
    (∀ t ∈ defDB.teams, t.team_id ≠ 99) ∧
    get_team_overview_stats defDB 99 =
      ⟨0, none, none, none, none, none, none, none⟩ := by
  constructor
  · decide
  · with_unfolding_all rfl

/- ### Join-collapse lemmas for the team ranking queries -/

theorem flatMap_congr {α β : Type} {l : List α} {f g : α → List β}
    (h : ∀ a ∈ l, f a = g a) : l.flatMap f = l.flatMap g := by
  induction l with
  | nil => rfl
  | cons a t ih =>
    simp only [List.flatMap_cons, h a (List.mem_cons_self a t)]
    rw [ih (fun x hx => h x (List.mem_cons_of_mem a hx))]

theorem flatMap_if_filter {α β : Type} (l : List α) (p : α → Bool) (inner : α → List β) :
    (l.flatMap (fun a => if p a then inner a else [])) = (l.filter p).flatMap inner := by
  induction l with
  | nil => rfl
  | cons a t ih =>
    by_cases h : p a <;> simp [List.flatMap_cons, List.filter_cons, h, ih]

theorem flatMap_singleton_map {α β : Type} (l : List α) (g : α → β) :
    (l.flatMap (fun a => [g a])) = l.map g := by
  induction l with
  | nil => rfl
  | cons a t ih => simp [List.flatMap_cons, ih]

theorem sum_ite_one {α : Type} (l : List α) (p : α → Bool) :
    (l.map (fun a => if p a then 1 else 0)).sum = (l.filter p).length := by
  induction l with
  | nil => rfl
  | cons a t ih =>
    by_cases h : p a <;> simp [List.filter_cons, h, ih, Nat.add_comm]

theorem nodup_key_inj {α κ : Type} [DecidableEq κ] {l : List α} {g : α → κ}
    (h : (l.map g).Nodup) {x y : α} (hx : x ∈ l) (hy : y ∈ l) (hxy : g x = g y) : x = y := by
  have h1 := filter_key_eq_singleton h hx rfl
  have h2 : y ∈ l.filter (fun z => decide (g z = g x)) :=
    List.mem_filter.2 ⟨hy, by simp [hxy]⟩
  rw [h1] at h2
  exact (List.mem_singleton.1 h2).symm

theorem teamRowsOf_eq_singleton {db : DB} (hT : TeamsUnique db) {t0 : TeamRow}
    (ht0 : t0 ∈ db.teams) {ts : TeamStatRow} (hid : t0.team_id = ts.team_id) :
    teamRowsOf db ts = [t0] :=
  filter_key_eq_singleton hT ht0 hid

theorem matchRowsOf_eq_singleton {db : DB} (hM : MatchesUnique db) {m0 : MatchRow}
    (hm0 : m0 ∈ db.«matches») {ts : TeamStatRow} (hid : m0.id = ts.match_id) :
    matchRowsOf db ts = [m0] :=
  filter_key_eq_singleton hM hm0 hid

theorem mem_teamRowsOf {db : DB} {ts : TeamStatRow} {t : TeamRow}
    (h : t ∈ teamRowsOf db ts) : t ∈ db.teams ∧ t.team_id = ts.team_id := by
  have := List.mem_filter.1 h
  exact ⟨this.1, of_decide_eq_true this.2⟩

theorem mem_teamStatsOf {db : DB} {tid : Nat} {ts : TeamStatRow}
    (h : ts ∈ teamStatsOf db tid) : ts ∈ db.team_stats ∧ ts.team_id = tid := by
  have := List.mem_filter.1 h
  exact ⟨this.1, of_decide_eq_true this.2⟩

theorem teamKey2_shape {db : DB} {k : Nat × String × String}
    (hk : k ∈ groupKeys teamKey2 (teamJoinRows db)) :
    ∃ t0 ∈ db.teams, k = (t0.team_id, t0.team_name, t0.logo) := by
  obtain ⟨row, hrow, rfl⟩ := mem_groupKeys.1 hk
  simp only [teamJoinRows, List.mem_flatMap, List.mem_map] at hrow
  obtain ⟨ts, hts, t, ht, rfl⟩ := hrow
  obtain ⟨htm, htid⟩ := mem_teamRowsOf ht
  exact ⟨t, htm, by simp [teamKey2, htid]⟩

theorem groupRows_teamJoin (db : DB) (hT : TeamsUnique db) (t0 : TeamRow)
    (ht0 : t0 ∈ db.teams) :
    groupRows teamKey2 (teamJoinRows db) (t0.team_id, t0.team_name, t0.logo) =
      (teamStatsOf db t0.team_id).map (fun ts => (ts, t0)) := by
  unfold teamJoinRows
  rw [groupRows_flatMap]
  have hper : ∀ ts ∈ db.team_stats,
      groupRows teamKey2 ((teamRowsOf db ts).map (fun t => (ts, t)))
          (t0.team_id, t0.team_name, t0.logo) =
        if decide (ts.team_id = t0.team_id) then [(ts, t0)] else [] := by
    intro ts _
    by_cases hid : ts.team_id = t0.team_id
    · rw [if_pos (by simpa using hid)]
      rw [teamRowsOf_eq_singleton hT ht0 hid.symm]
      simp [groupRows, List.filter_cons, teamKey2, hid]
    · rw [if_neg (by simpa using hid)]
      apply List.filter_eq_nil_iff.2
      intro b hb
      obtain ⟨t, ht, rfl⟩ := List.mem_map.1 hb
      simp only [teamKey2, decide_eq_true_eq]
      intro hkey
      exact hid (congrArg Prod.fst hkey)
  rw [flatMap_congr hper, flatMap_if_filter]
  exact flatMap_singleton_map _ _

theorem aggr_group_eq (db : DB) (hT : TeamsUnique db) {k : Nat × String × String}
    (hk : k ∈ groupKeys teamKey2 (teamJoinRows db)) :
    ∃ t0 ∈ db.teams, k = (t0.team_id, t0.team_name, t0.logo) ∧
      groupRows teamKey2 (teamJoinRows db) k =
        (teamStatsOf db k.1).map (fun ts => (ts, t0)) := by
  obtain ⟨t0, ht0, rfl⟩ := teamKey2_shape hk
  exact ⟨t0, ht0, rfl, groupRows_teamJoin db hT t0 ht0⟩

theorem aggressiveAgg_team_id (g : List (TeamStatRow × TeamRow)) (k : Nat × String × String) :
    (aggressiveAgg g k).team_id = k.1 := rfl

theorem aggressiveAgg_matches_played (g : List (TeamStatRow × TeamRow))
    (k : Nat × String × String) :
    (aggressiveAgg g k).matches_played = ((g.map (fun r => r.1.match_id)).dedup).length := rfl

theorem aggressiveAgg_raw_eq_cols (g : List (TeamStatRow × TeamRow))
    (k : Nat × String × String) :
    (aggressiveAgg g k).total_aggression_score =
      (aggressiveAgg g k).total_tackles * 1 + (aggressiveAgg g k).fouls * 2 +
        (aggressiveAgg g k).yellow_cards * 3 + (aggressiveAgg g k).red_cards * 5 := rfl

theorem aggressiveAgg_score_eq (g : List (TeamStatRow × TeamRow)) (k : Nat × String × String) :
    (aggressiveAgg g k).aggression_score_per_match =
      pgRound2 (((aggressiveAgg g k).total_aggression_score : ℚ) /
        ((aggressiveAgg g k).matches_played : ℚ)) := rfl

theorem aggressive_ok_elim {db : DB} {limit : Int} {out : List AggressiveTeamRow}
    (hok : get_most_aggressive_teams db limit = .ok out) :
    out.Pairwise (fun a b => b.aggression_score_per_match ≤ a.aggression_score_per_match) ∧
    ∀ r ∈ out, ∃ k ∈ groupKeys teamKey2 (teamJoinRows db),
      r = aggressiveAgg (groupRows teamKey2 (teamJoinRows db) k) k := by
  unfold get_most_aggressive_teams at hok
  obtain ⟨-, rfl⟩ := sqlLimit_eq_ok hok
  refine ⟨List.Pairwise.sublist (List.take_sublist _ _) (sortByKeyDesc_sorted _ _), ?_⟩
  intro r hr
  have hr2 : r ∈ aggressiveAggregated db := mem_sortByKeyDesc.1 (List.mem_of_mem_take hr)
  unfold aggressiveAggregated at hr2
  obtain ⟨k, hk, rfl⟩ := List.mem_map.1 hr2
  exact ⟨k, hk, rfl⟩

/- ### C2: the aggression score and its ordering -/

/-- C2 (amended): every output row of get_most_aggressive_teams carries the
per-team totals of tackles, fouls, yellow and red cards, its
total_aggression_score is the weighted sum tackles·1 + fouls·2 + yellow·3 +
red·5 of those totals, its per-match score is that raw score divided by the
number of distinct matches played and then rounded to two decimal places,
and the output is ordered by this rounded per-match score descending. -/
theorem aggression_columns (db : DB) (limit : Int) (out : List AggressiveTeamRow)
    (hT : TeamsUnique db)
    (hok : get_most_aggressive_teams db limit = .ok out) :
    out.Pairwise (fun a b => b.aggression_score_per_match ≤ a.aggression_score_per_match) ∧
    ∀ r ∈ out,
      r.total_tackles = teamSumInt db r.team_id (fun ts => ts.total_tackles) ∧
      r.fouls = teamSumInt db r.team_id (fun ts => ts.fouls) ∧
      r.yellow_cards = teamSumInt db r.team_id (fun ts => ts.yellow_cards) ∧
      r.red_cards = teamSumInt db r.team_id (fun ts => ts.red_cards) ∧
      r.matches_played = teamDistinctMatches db r.team_id ∧
      r.total_aggression_score =
        r.total_tackles * 1 + r.fouls * 2 + r.yellow_cards * 3 + r.red_cards * 5 ∧
      r.aggression_score_per_match =
        pgRound2 ((r.total_aggression_score : ℚ) / (r.matches_played : ℚ)) := by
  obtain ⟨hpair, hmem⟩ := aggressive_ok_elim hok
  refine ⟨hpair, ?_⟩
  intro r hr
  obtain ⟨k, hk, rfl⟩ := hmem r hr
  obtain ⟨t0, ht0, hkeq, hgr⟩ := aggr_group_eq db hT hk
  rw [aggressiveAgg_team_id]
  refine ⟨?_, ?_, ?_, ?_, ?_, aggressiveAgg_raw_eq_cols _ _, aggressiveAgg_score_eq _ _⟩
  · show ((groupRows teamKey2 (teamJoinRows db) k).map (fun r => r.1.total_tackles)).sum = _
    rw [hgr, List.map_map]
    rfl
  · show ((groupRows teamKey2 (teamJoinRows db) k).map (fun r => r.1.fouls)).sum = _
    rw [hgr, List.map_map]
    rfl
  · show ((groupRows teamKey2 (teamJoinRows db) k).map (fun r => r.1.yellow_cards)).sum = _
    rw [hgr, List.map_map]
    rfl
  · show ((groupRows teamKey2 (teamJoinRows db) k).map (fun r => r.1.red_cards)).sum = _
    rw [hgr, List.map_map]
    rfl
  · show (((groupRows teamKey2 (teamJoinRows db) k).map (fun r => r.1.match_id)).dedup).length = _
    rw [hgr, List.map_map]
    rfl

/-- C2 counterexample: one tackle over three matches gives the rounded
per-match score 0.33, not the exact ratio 1/3 that the claim states. -/
theorem aggression_score_not_exact_ratio :
    get_most_aggressive_teams aggrDB 5 = .ok [aggrRow] ∧
    ¬ aggrRow.aggression_score_per_match =
        ((aggrRow.total_tackles * 1 + aggrRow.fouls * 2 + aggrRow.yellow_cards * 3 +
          aggrRow.red_cards * 5 : Int) : ℚ) / (aggrRow.matches_played : ℚ) := by
  constructor
  · with_unfolding_all rfl
  · with_unfolding_all decide

/-- C2 witness: the spec's example team (tackles 100, fouls 20, yellow 10,
red 2 over five matches) has raw score 180 and per-match score 36. -/
theorem aggression_columns_witness :
    get_most_aggressive_teams aggrExDB 5 = .ok [aggrExRow] ∧
    aggrExRow.total_aggression_score = 180 ∧
    aggrExRow.aggression_score_per_match = 36 ∧
    aggrExRow.aggression_score_per_match =
      pgRound2 ((aggrExRow.total_aggression_score : ℚ) / (aggrExRow.matches_played : ℚ)) := by
  refine ⟨by with_unfolding_all rfl, by with_unfolding_all rfl, by with_unfolding_all decide, ?_⟩
  exact ((aggression_columns aggrExDB 5 [aggrExRow] (by unfold TeamsUnique; decide)
    (by with_unfolding_all rfl)).2 aggrExRow
    (List.mem_singleton_self aggrExRow)).2.2.2.2.2.2

/- ### C6: the per-match divisors -/

theorem teamKey3_shape {db : DB} {k : Nat × String × String}
    (hk : k ∈ groupKeys teamKey3 (attackJoinRows db)) :
    ∃ t0 ∈ db.teams, k = (t0.team_id, t0.team_name, t0.logo) := by
  obtain ⟨row, hrow, rfl⟩ := mem_groupKeys.1 hk
  simp only [attackJoinRows, List.mem_flatMap, List.mem_map] at hrow
  obtain ⟨ts, hts, t, ht, m, hm, rfl⟩ := hrow
  exact ⟨t, (mem_teamRowsOf ht).1, by simp [teamKey3, (mem_teamRowsOf ht).2]⟩

theorem attack_group_length (db : DB) (hT : TeamsUnique db) (hM : MatchesUnique db)
    (hME : MatchExists db) (t0 : TeamRow) (ht0 : t0 ∈ db.teams) :
    (groupRows teamKey3 (attackJoinRows db) (t0.team_id, t0.team_name, t0.logo)).length =
      (teamStatsOf db t0.team_id).length := by
  unfold attackJoinRows
  rw [groupRows_flatMap, List.length_flatMap]
  have hper : ∀ ts ∈ db.team_stats,
      (Function.comp List.length (fun ts => groupRows teamKey3
          ((teamRowsOf db ts).flatMap (fun t => (matchRowsOf db ts).map (fun m => (ts, t, m))))
          (t0.team_id, t0.team_name, t0.logo))) ts =
        if decide (ts.team_id = t0.team_id) then 1 else 0 := by
    intro ts hts
    by_cases hid : ts.team_id = t0.team_id
    · rw [if_pos (by simpa using hid)]
      obtain ⟨m0, hm0, hm0id⟩ := hME ts hts
      simp only [Function.comp]
      rw [teamRowsOf_eq_singleton hT ht0 hid.symm, matchRowsOf_eq_singleton hM hm0 hm0id]
      simp [groupRows, List.filter_cons, teamKey3, hid]
    · rw [if_neg (by simpa using hid)]
      simp only [Function.comp, List.length_eq_zero]
      apply List.filter_eq_nil_iff.2
      intro b hb
      simp only [List.mem_flatMap, List.mem_map] at hb
      obtain ⟨t, ht, m, hm, rfl⟩ := hb
      simp only [teamKey3, decide_eq_true_eq]
      intro hkey
      exact hid (congrArg Prod.fst hkey)
  rw [List.map_congr_left hper, sum_ite_one]
  rfl

theorem attackingAgg_team_id (g : List (TeamStatRow × TeamRow × MatchRow))
    (k : Nat × String × String) : (attackingAgg g k).team_id = k.1 := rfl

theorem attackingAgg_matches_played (g : List (TeamStatRow × TeamRow × MatchRow))
    (k : Nat × String × String) : (attackingAgg g k).matches_played = g.length := rfl

theorem attackingAgg_score_eq (g : List (TeamStatRow × TeamRow × MatchRow))
    (k : Nat × String × String) :
    (attackingAgg g k).attacking_score_per_match =
      attackingRawOfRow (attackingAgg g k) / ((attackingAgg g k).matches_played : ℚ) := rfl

theorem attacking_ok_elim {db : DB} {limit : Int} {out : List AttackingTeamRow}
    (hok : get_best_attacking_teams db limit = .ok out) :
    out.Pairwise (fun a b => b.attacking_score_per_match ≤ a.attacking_score_per_match) ∧
    ∀ r ∈ out, ∃ k ∈ groupKeys teamKey3 (attackJoinRows db),
      r = attackingAgg (groupRows teamKey3 (attackJoinRows db) k) k := by
  unfold get_best_attacking_teams at hok
  obtain ⟨-, rfl⟩ := sqlLimit_eq_ok hok
  refine ⟨List.Pairwise.sublist (List.take_sublist _ _) (sortByKeyDesc_sorted _ _), ?_⟩
  intro r hr
  have hr2 : r ∈ attackingAggregated db := mem_sortByKeyDesc.1 (List.mem_of_mem_take hr)
  unfold attackingAggregated at hr2
  obtain ⟨k, hk, rfl⟩ := List.mem_map.1 hr2
  exact ⟨k, hk, rfl⟩

/-- C6 (amended): the aggression score divides by the number of distinct
matches of the team, but the attacking score divides by `COUNT(*)`, the
number of the team's aggregated stat rows; the two divisors agree only
when the team has at most one stat row per match. -/
theorem per_match_divisors (db : DB) (limit : Int) (hT : TeamsUnique db)
    (hM : MatchesUnique db) (hME : MatchExists db) :
    (∀ out : List AggressiveTeamRow, get_most_aggressive_teams db limit = .ok out →
      ∀ r ∈ out,
        r.matches_played = teamDistinctMatches db r.team_id ∧
        r.aggression_score_per_match =
          pgRound2 ((r.total_aggression_score : ℚ) / (r.matches_played : ℚ))) ∧
    (∀ out : List AttackingTeamRow, get_best_attacking_teams db limit = .ok out →
      ∀ r ∈ out,
        r.matches_played = (teamStatsOf db r.team_id).length ∧
        r.attacking_score_per_match = attackingRawOfRow r / (r.matches_played : ℚ) ∧
        (OneRowPerMatch db → r.matches_played = teamDistinctMatches db r.team_id)) := by
  constructor
  · intro out hok r hr
    obtain ⟨-, hmem⟩ := aggressive_ok_elim hok
    obtain ⟨k, hk, rfl⟩ := hmem r hr
    obtain ⟨t0, ht0, hkeq, hgr⟩ := aggr_group_eq db hT hk
    refine ⟨?_, aggressiveAgg_score_eq _ _⟩
    rw [aggressiveAgg_team_id, aggressiveAgg_matches_played, hgr, List.map_map]
    rfl
  · intro out hok r hr
    obtain ⟨-, hmem⟩ := attacking_ok_elim hok
    obtain ⟨k, hk, rfl⟩ := hmem r hr
    obtain ⟨t0, ht0, rfl⟩ := teamKey3_shape hk
    have hlen : (attackingAgg (groupRows teamKey3 (attackJoinRows db)
        (t0.team_id, t0.team_name, t0.logo)) (t0.team_id, t0.team_name, t0.logo)).matches_played =
        (teamStatsOf db t0.team_id).length := by
      rw [attackingAgg_matches_played]
      exact attack_group_length db hT hM hME t0 ht0
    refine ⟨hlen, attackingAgg_score_eq _ _, ?_⟩
    intro hRow
    rw [hlen, attackingAgg_team_id]
    show (teamStatsOf db t0.team_id).length = teamDistinctMatches db t0.team_id
    unfold teamDistinctMatches
    rw [List.dedup_eq_self.2 (hRow t0.team_id), List.length_map]

/-- C6 counterexample: with two stat rows for the same match, the attacking
score divides by the row count 2, not by the single distinct match. -/
theorem attacking_divisor_row_count_counterexample :
    get_best_attacking_teams attackDB 5 = .ok [attackRow] ∧
    teamDistinctMatches attackDB 10 = 1 ∧
    attackRow.matches_played = 2 ∧
    attackRow.attacking_score_per_match =
      attackingRawOfRow attackRow / (attackRow.matches_played : ℚ) ∧
    ¬ attackRow.attacking_score_per_match =
        attackingRawOfRow attackRow / (teamDistinctMatches attackDB 10 : ℚ) := by
  refine ⟨?_, ?_, ?_, ?_, ?_⟩
  · with_unfolding_all rfl
  · with_unfolding_all rfl
  · rfl
  · with_unfolding_all decide
  · with_unfolding_all decide

/-- C6 witness: the divisor theorem applied to the concrete database. -/
theorem per_match_divisors_witness :
    (∀ out : List AggressiveTeamRow, get_most_aggressive_teams attackDB 5 = .ok out →
      ∀ r ∈ out,
        r.matches_played = teamDistinctMatches attackDB r.team_id ∧
        r.aggression_score_per_match =
          pgRound2 ((r.total_aggression_score : ℚ) / (r.matches_played : ℚ))) ∧
    (∀ out : List AttackingTeamRow, get_best_attacking_teams attackDB 5 = .ok out →
      ∀ r ∈ out,
        r.matches_played = (teamStatsOf attackDB r.team_id).length ∧
        r.attacking_score_per_match = attackingRawOfRow r / (r.matches_played : ℚ) ∧
        (OneRowPerMatch attackDB → r.matches_played = teamDistinctMatches attackDB r.team_id)) :=
  per_match_divisors attackDB 5 (by unfold TeamsUnique; decide)
    (by unfold MatchesUnique; decide) (by unfold MatchExists; decide)

/- ### C1: the defensive score formula over per-team sums -/

theorem teamKey4_shape {db : DB} {k : Nat × String × String}
    (hk : k ∈ groupKeys teamKey4 (defensiveJoinRows db)) :
    ∃ t0 ∈ db.teams, k = (t0.team_id, t0.team_name, t0.logo) := by
  obtain ⟨row, hrow, rfl⟩ := mem_groupKeys.1 hk
  simp only [defensiveJoinRows, List.mem_flatMap, List.mem_map] at hrow
  obtain ⟨ts, hts, t, ht, m, hm, o, ho, rfl⟩ := hrow
  exact ⟨t, (mem_teamRowsOf ht).1, by simp [teamKey4, (mem_teamRowsOf ht).2]⟩

/-- The rows of one defensive group, summed through any function: the
teams-join layer collapses to the single team row, leaving the team's stat
rows with their joined match and opponent rows. -/
theorem defensive_group_sum_eq {M : Type} [AddCommMonoid M] (db : DB)
    (hT : TeamsUnique db) (t0 : TeamRow) (ht0 : t0 ∈ db.teams)
    (f : TeamStatRow × TeamRow × MatchRow × TeamStatRow → M) :
    ((groupRows teamKey4 (defensiveJoinRows db) (t0.team_id, t0.team_name, t0.logo)).map
        f).sum =
      ((teamStatsOf db t0.team_id).map (fun ts =>
        ((matchRowsOf db ts).map (fun m =>
          ((oppRowsOf db ts).map (fun o => f (ts, t0, m, o))).sum)).sum)).sum := by
  unfold defensiveJoinRows
  rw [groupRows_flatMap]
  have hper : ∀ ts ∈ db.team_stats,
      groupRows teamKey4 ((teamRowsOf db ts).flatMap (fun t =>
          (matchRowsOf db ts).flatMap (fun m =>
            (oppRowsOf db ts).map (fun o => (ts, t, m, o)))))
          (t0.team_id, t0.team_name, t0.logo) =
        if decide (ts.team_id = t0.team_id) then
          (matchRowsOf db ts).flatMap (fun m =>
            (oppRowsOf db ts).map (fun o => (ts, t0, m, o)))
        else [] := by
    intro ts _
    by_cases hid : ts.team_id = t0.team_id
    · rw [if_pos (by simpa using hid)]
      rw [teamRowsOf_eq_singleton hT ht0 hid.symm, List.flatMap_singleton]
      unfold groupRows
      apply List.filter_eq_self.2
      intro b hb
      simp only [List.mem_flatMap, List.mem_map] at hb
      obtain ⟨m, hm, o, ho, rfl⟩ := hb
      simp [teamKey4, hid]
    · rw [if_neg (by simpa using hid)]
      apply List.filter_eq_nil_iff.2
      intro b hb
      simp only [List.mem_flatMap, List.mem_map] at hb
      obtain ⟨t, ht, m, hm, o, ho, rfl⟩ := hb
      simp only [teamKey4, decide_eq_true_eq]
      intro hkey
      exact hid (congrArg Prod.fst hkey)
  rw [flatMap_congr hper, flatMap_if_filter, List.map_flatMap, sum_flatMap_eq]
  apply congrArg List.sum
  apply List.map_congr_left
  intro ts _
  rw [List.map_flatMap, sum_flatMap_eq]
  apply congrArg List.sum
  apply List.map_congr_left
  intro m _
  rw [List.map_map]
  rfl

/-- A per-team sum of one of the team's own columns, read off the
defensive group. -/
theorem defensive_group_own_col (db : DB) (hT : TeamsUnique db) (hM : MatchesUnique db)
    (hME : MatchExists db) (hO : OppUnique db) (t0 : TeamRow) (ht0 : t0 ∈ db.teams)
    (c : TeamStatRow → Int) :
    ((groupRows teamKey4 (defensiveJoinRows db) (t0.team_id, t0.team_name, t0.logo)).map
        (fun r => c r.1)).sum = teamSumInt db t0.team_id c := by
  rw [defensive_group_sum_eq db hT t0 ht0 (fun r => c r.1)]
  unfold teamSumInt
  apply congrArg List.sum
  apply List.map_congr_left
  intro ts hts
  obtain ⟨htsm, -⟩ := mem_teamStatsOf hts
  obtain ⟨m0, hm0, hm0id⟩ := hME ts htsm
  obtain ⟨o0, ho0⟩ := List.length_eq_one.1 (hO ts htsm)
  rw [matchRowsOf_eq_singleton hM hm0 hm0id, ho0]
  simp

/-- The offsides-against sum of a defensive group is the per-team sum of
the opponents' offsides. -/
theorem defensive_group_offsides (db : DB) (hT : TeamsUnique db) (hM : MatchesUnique db)
    (hME : MatchExists db) (t0 : TeamRow) (ht0 : t0 ∈ db.teams) :
    ((groupRows teamKey4 (defensiveJoinRows db) (t0.team_id, t0.team_name, t0.logo)).map
        (fun r => r.2.2.2.offsides)).sum = oppOffsidesSum db t0.team_id := by
  rw [defensive_group_sum_eq db hT t0 ht0 (fun r => r.2.2.2.offsides)]
  unfold oppOffsidesSum
  apply congrArg List.sum
  apply List.map_congr_left
  intro ts hts
  obtain ⟨htsm, -⟩ := mem_teamStatsOf hts
  obtain ⟨m0, hm0, hm0id⟩ := hME ts htsm
  rw [matchRowsOf_eq_singleton hM hm0 hm0id]
  simp

/-- The goals-conceded sum of a defensive group is the per-team sum of
goals conceded by match role. -/
theorem defensive_group_conceded (db : DB) (hT : TeamsUnique db)
    (hO : OppUnique db) (t0 : TeamRow) (ht0 : t0 ∈ db.teams) :
    ((groupRows teamKey4 (defensiveJoinRows db) (t0.team_id, t0.team_name, t0.logo)).map
        (fun r => concededCase r.1 r.2.2.1)).sum = teamConcededSum db t0.team_id := by
  rw [defensive_group_sum_eq db hT t0 ht0 (fun r => concededCase r.1 r.2.2.1)]
  unfold teamConcededSum
  apply congrArg List.sum
  apply List.map_congr_left
  intro ts hts
  obtain ⟨htsm, -⟩ := mem_teamStatsOf hts
  obtain ⟨o0, ho0⟩ := List.length_eq_one.1 (hO ts htsm)
  apply congrArg List.sum
  apply List.map_congr_left
  intro m _
  rw [ho0]
  simp

theorem defensiveAgg_team_id (g : List (TeamStatRow × TeamRow × MatchRow × TeamStatRow))
    (k : Nat × String × String) : (defensiveAgg g k).team_id = k.1 := rfl

theorem defensiveAgg_score_def (g : List (TeamStatRow × TeamRow × MatchRow × TeamStatRow))
    (k : Nat × String × String) :
    (defensiveAgg g k).defensive_score =
      ((((g.map (fun r => r.2.2.2.offsides)).sum : Int) : ℚ) * 2.0 +
       (((g.map (fun r => r.1.yellow_cards)).sum : Int) : ℚ) * 1.0 +
       (((g.map (fun r => r.1.blocked_shots)).sum : Int) : ℚ) * 1.5 +
       (((g.map (fun r => r.1.total_tackles)).sum : Int) : ℚ) * 1.0 +
       (((g.map (fun r => r.1.effective_tackles)).sum : Int) : ℚ) * 2.5 +
       (((g.map (fun r => r.1.interceptions)).sum : Int) : ℚ) * 1.5 +
       (((g.map (fun r => r.1.total_clearance)).sum : Int) : ℚ) * 1.0 +
       (((g.map (fun r => r.1.effective_clearance)).sum : Int) : ℚ) * 2.5 -
       (((g.map (fun r => concededCase r.1 r.2.2.1)).sum : Int) : ℚ) * 2.0) /
      (1 + (((g.map (fun r => concededCase r.1 r.2.2.1)).sum : Int) : ℚ)) := rfl

/-- C1: under the data-model invariants, every row of the defensive
leaderboard has defensive score (offsides_against·2.0 + yellow·1.0 +
blocked_shots·1.5 + tackles·1.0 + effective_tackles·2.5 +
interceptions·1.5 + clearance·1.0 + effective_clearance·2.5 −
goals_conceded·2.0) / (1 + goals_conceded), where each input is the
per-team sum over all the team's matches. -/
theorem defensive_score_eq_weighted_per_team_sums (db : DB) (limit : Int)
    (out : List DefensiveTeamRow) (hT : TeamsUnique db) (hM : MatchesUnique db)
    (hME : MatchExists db) (hO : OppUnique db)
    (hok : get_best_defensive_teams db limit = .ok out) :
    ∀ r ∈ out,
      r.defensive_score =
        ((oppOffsidesSum db r.team_id : ℚ) * 2.0 +
         (teamSumInt db r.team_id (fun ts => ts.yellow_cards) : ℚ) * 1.0 +
         (teamSumInt db r.team_id (fun ts => ts.blocked_shots) : ℚ) * 1.5 +
         (teamSumInt db r.team_id (fun ts => ts.total_tackles) : ℚ) * 1.0 +
         (teamSumInt db r.team_id (fun ts => ts.effective_tackles) : ℚ) * 2.5 +
         (teamSumInt db r.team_id (fun ts => ts.interceptions) : ℚ) * 1.5 +
         (teamSumInt db r.team_id (fun ts => ts.total_clearance) : ℚ) * 1.0 +
         (teamSumInt db r.team_id (fun ts => ts.effective_clearance) : ℚ) * 2.5 -
         (teamConcededSum db r.team_id : ℚ) * 2.0) /
        (1 + (teamConcededSum db r.team_id : ℚ)) := by
  intro r hr
  obtain ⟨k, hk, rfl⟩ := (defensive_ok_elim hok).2 r hr
  obtain ⟨t0, ht0, rfl⟩ := teamKey4_shape hk
  have hshape : (defensiveAgg (groupRows teamKey4 (defensiveJoinRows db)
      (t0.team_id, t0.team_name, t0.logo)) (t0.team_id, t0.team_name, t0.logo)).team_id =
      t0.team_id := rfl
  rw [hshape, defensiveAgg_score_def,
    defensive_group_own_col db hT hM hME hO t0 ht0 (fun ts => ts.yellow_cards),
    defensive_group_own_col db hT hM hME hO t0 ht0 (fun ts => ts.blocked_shots),
    defensive_group_own_col db hT hM hME hO t0 ht0 (fun ts => ts.total_tackles),
    defensive_group_own_col db hT hM hME hO t0 ht0 (fun ts => ts.effective_tackles),
    defensive_group_own_col db hT hM hME hO t0 ht0 (fun ts => ts.interceptions),
    defensive_group_own_col db hT hM hME hO t0 ht0 (fun ts => ts.total_clearance),
    defensive_group_own_col db hT hM hME hO t0 ht0 (fun ts => ts.effective_clearance),
    defensive_group_offsides db hT hM hME t0 ht0,
    defensive_group_conceded db hT hO t0 ht0]

/-- C1 witness: on the spec's example database the output lists the example
team first and its defensive score is 38.25 = 153/4, matching the weighted
formula over its per-team sums. -/
theorem defensive_score_example_38_25 :
    get_best_defensive_teams defDB 5 = .ok defDBOut ∧
    defRow20.defensive_score = 153/4 ∧
    (∀ r ∈ defDBOut,
      r.defensive_score =
        ((oppOffsidesSum defDB r.team_id : ℚ) * 2.0 +
         (teamSumInt defDB r.team_id (fun ts => ts.yellow_cards) : ℚ) * 1.0 +
         (teamSumInt defDB r.team_id (fun ts => ts.blocked_shots) : ℚ) * 1.5 +
         (teamSumInt defDB r.team_id (fun ts => ts.total_tackles) : ℚ) * 1.0 +
         (teamSumInt defDB r.team_id (fun ts => ts.effective_tackles) : ℚ) * 2.5 +
         (teamSumInt defDB r.team_id (fun ts => ts.interceptions) : ℚ) * 1.5 +
         (teamSumInt defDB r.team_id (fun ts => ts.total_clearance) : ℚ) * 1.0 +
         (teamSumInt defDB r.team_id (fun ts => ts.effective_clearance) : ℚ) * 2.5 -
         (teamConcededSum defDB r.team_id : ℚ) * 2.0) /
        (1 + (teamConcededSum defDB r.team_id : ℚ))) := by
  refine ⟨?_, ?_, ?_⟩
  · with_unfolding_all rfl
  · with_unfolding_all rfl
  · exact defensive_score_eq_weighted_per_team_sums defDB 5 defDBOut
      (by unfold TeamsUnique; decide) (by unfold MatchesUnique; decide)
      (by unfold MatchExists; decide) (by unfold OppUnique oppRowsOf; decide)
      (by with_unfolding_all rfl)
